import Mathlib

/-!
BayeuxSession: the session-lifecycle controller of coweb

A shallow embedding of `src/www/libs/coweb/session/BayeuxSession.js`.

* The fields of `this` become the record `BayeuxSession`.
* Every method becomes a function from the state before the call to a `Run`:
  the state after the call, the effects on the collaborators (hub, bridge,
  listener, promises, xhr, window) in the order the method performs them, and
  the completion of the call: a returned value or a thrown exception.  A method
  that throws half-way keeps the state and effects it had produced up to the
  throw, as a JavaScript call does.
* `new Promise()` allocates the next handle number; resolving and failing a
  promise are effects.  The application callbacks that run inside
  `def.resolve(...)` are not part of the file: the only thing the controller
  observes of them is whether the resolve call throws, which the success
  continuations take as an argument.
* The transport bridge is reduced to the state `getState()` reads; its
  operations are effects, and its state changes are steps of the environment.
-/

namespace Coweb

/-! ## Values -/

/-- Modelled from the spec: the state constants of `coweb/session/bayeux/SessionBridge`
(the bridge module is not part of the sources), the four phases that
`getState()` is compared against. -/
inductive Phase where
  | IDLE
  | PREPARED
  | JOINED
  | UPDATED
deriving DecidableEq

/-- A JavaScript exception value: `new Error(message)`, the `TypeError` of a
property access on `null` or `undefined`, or the `URIError` of a malformed
escape sequence. -/
inductive Fault where
  | Error (message : String)
  | TypeError
  | URIError
deriving DecidableEq

deriving instance DecidableEq for Except

/-- The `message` property of an exception value. -/
def Fault.message : Fault → String
  | .Error m => m
  | .TypeError => "TypeError"
  | .URIError => "URI malformed"

/-- A promise object, named by its allocation number. -/
abbrev Handle := Nat

/-- The `params` object given to `prepareConference`; `none` is `undefined`. -/
structure Params where
  key : Option String
  collab : Option Bool
  autoJoin : Option Bool
  autoUpdate : Option Bool
deriving DecidableEq

/-- The payload of the bridge's prepare response. -/
structure Response where
  data : String
deriving DecidableEq

/-- The object `this._prepParams`: a clone of the params, plus `deferred` and
`response`. -/
structure PrepParams where
  params : Params
  deferred : Option Handle
  response : Option Response
deriving DecidableEq

/-- The value a promise is resolved with: the prepare response (if any) and
the `nextDef` property. -/
structure Payload where
  response : Option Response
  nextDef : Option Handle
deriving DecidableEq

/-- The `{state, tag}` object the bridge resolves `disconnectDef` with. -/
structure DisconnectResult where
  state : Phase
  tag : Option String
deriving DecidableEq

/-- JavaScript truthiness of an optional boolean property. -/
def truthy : Option Bool → Bool
  | some true => true
  | _ => false

/-- JavaScript truthiness of an optional string: `undefined` and `""` are falsy. -/
def truthyString : Option String → Bool
  | none => false
  | some t => t ≠ ""

/-! ## Collaborators -/

/-- Modelled from the spec: the `SessionBridge` object, reduced to the state
that `getState()` returns. -/
structure SessionBridge where
  state : Phase
deriving DecidableEq

/-- The listener implementation handed to `init`. -/
structure Listener where
  name : String
deriving DecidableEq

/-- The value of `this._unloadToks`: the object holding the two tokens, or (in
the `attachEvent` branch of `init`) the `destroy` closure itself. -/
inductive UnloadToks where
  | object (onbeforeunload onunload : Bool)
  | destroyFn
deriving DecidableEq

/-- The parts of `window` the controller reads: the three parts of `location`,
whether `window.addEventListener` exists, and whether the older pair
`window.attachEvent` and `window.detachEvent` exists. -/
structure Window where
  host : String
  pathname : String
  search : String
  addEventListener : Bool
  attachEvent : Bool
deriving DecidableEq

/-- The `params` object given to `init`. -/
structure InitParams where
  loginUrl : Option String
  logoutUrl : Option String
  debug : Bool
  adminUrl : Option String
deriving DecidableEq

/-- Everything the controller does to the outside world.  The `body` of
`xhrSend` is the pair of `username` and `password` that `login` passes through
`JSON.stringify({username : username, password : password})`; `logout` sends no
body. -/
inductive Effect where
  | publishBusy (value : String)
  | publishEnd (connected : Bool)
  | bridgePrepareConference (key : Option String) (collab : Option Bool)
  | bridgeDisconnectThen
  | bridgeJoinConference
  | bridgeUpdateInConference
  | bridgeLogout
  | bridgeDestroy
  | bridgeNew (debug : Bool) (adminUrl : Option String)
  | listenerStop
  | listenerDestroy
  | thenErrback (h : Handle)
  | resolve (h : Handle) (value : Option Payload)
  | fail (h : Handle) (err : Fault)
  | xhrSend (method : String) (url : Option String) (body : Option (String × String))
  | consoleError (message : String)
  | addEventListener (type : String)
  | attachEvent (type : String)
  | detachEvent (type : String)
deriving DecidableEq

/-! ## State -/

/-- The fields of a `BayeuxSession` object. -/
structure BayeuxSession where
  _prepParams : Option PrepParams
  _lastPrep : Option Params
  _debug : Bool
  _bridge : Option SessionBridge
  _listener : Option Listener
  _destroying : Bool
  _unloadToks : Option UnloadToks
  _loginUrl : Option String
  _logoutUrl : Option String
deriving DecidableEq

/-- The controller together with the number of promises allocated so far. -/
structure State where
  self : BayeuxSession
  promises : Nat
deriving DecidableEq

/-- One call: the state it leaves, the effects it performed, and how it
completed. -/
structure Run (α : Type) where
  state : State
  effects : List Effect
  completion : Except Fault α

/-- The call threw. -/
def Run.throws {α : Type} (r : Run α) : Bool :=
  match r.completion with
  | .error _ => true
  | .ok _ => false

/-- The constructor `new BayeuxSession()`. -/
def BayeuxSession.new : BayeuxSession :=
  { _prepParams := none, _lastPrep := none, _debug := false, _bridge := none,
    _listener := none, _destroying := false,
    _unloadToks := some (.object false false), _loginUrl := none, _logoutUrl := none }

/-! ## The URI decoding builtins

`decodeURIComponent` and `decodeURI` are the ECMAScript `Decode` operation
with an empty reserved set and with the reserved set `;/?:@&=+$,#`.  An escape
is `%` and two hexadecimal digits; escapes of bytes below 0x80 give that
character (or stay as written when the character is reserved), and escapes of
larger bytes must spell the UTF-8 encoding of one code point.  Anything else
throws a `URIError`. -/

/-- The value of a hexadecimal digit. -/
def hexVal (c : Char) : Option Nat :=
  let n := c.toNat
  if 48 ≤ n ∧ n ≤ 57 then some (n - 48)
  else if 97 ≤ n ∧ n ≤ 102 then some (n - 87)
  else if 65 ≤ n ∧ n ≤ 70 then some (n - 55)
  else none

/-- A unit of an encoded string: a literal character, or an escape with its
two digits as written and the byte they denote. -/
inductive Tok where
  | lit (c : Char)
  | esc (a b : Char) (byte : Nat)
deriving DecidableEq

/-- Splits an encoded string into literals and escapes; `none` when a `%` is
not followed by two hexadecimal digits. -/
def tokens : List Char → Option (List Tok)
  | [] => some []
  | c :: rest =>
    if c = '%' then
      match rest with
      | a :: b :: rest2 =>
        match hexVal a, hexVal b with
        | some x, some y => (tokens rest2).map (fun ts => Tok.esc a b (16 * x + y) :: ts)
        | _, _ => none
      | _ => none
    else (tokens rest).map (fun ts => Tok.lit c :: ts)

/-- A UTF-8 continuation byte, `10xxxxxx`. -/
def isCont (v : Nat) : Bool := 128 ≤ v && v < 192

/-- Decodes the escapes of a token list, keeping the escapes of reserved
characters as written; `none` when the bytes are not valid UTF-8. -/
def decodeToks (reserved : List Char) : List Tok → Option (List Char)
  | [] => some []
  | .lit c :: rest => (decodeToks reserved rest).map (fun cs => c :: cs)
  | .esc a b v :: rest =>
    if v < 128 then
      if Char.ofNat v ∈ reserved then
        (decodeToks reserved rest).map (fun cs => '%' :: a :: b :: cs)
      else (decodeToks reserved rest).map (fun cs => Char.ofNat v :: cs)
    else if 192 ≤ v ∧ v < 224 then
      match rest with
      | .esc _ _ v1 :: rest1 =>
        let cp := (v - 192) * 64 + (v1 - 128)
        if isCont v1 ∧ 128 ≤ cp then
          (decodeToks reserved rest1).map (fun cs => Char.ofNat cp :: cs)
        else none
      | _ => none
    else if 224 ≤ v ∧ v < 240 then
      match rest with
      | .esc _ _ v1 :: .esc _ _ v2 :: rest2 =>
        let cp := (v - 224) * 4096 + (v1 - 128) * 64 + (v2 - 128)
        if isCont v1 ∧ isCont v2 ∧ 2048 ≤ cp ∧ ¬ (55296 ≤ cp ∧ cp < 57344) then
          (decodeToks reserved rest2).map (fun cs => Char.ofNat cp :: cs)
        else none
      | _ => none
    else if 240 ≤ v ∧ v < 248 then
      match rest with
      | .esc _ _ v1 :: .esc _ _ v2 :: .esc _ _ v3 :: rest3 =>
        let cp := (v - 240) * 262144 + (v1 - 128) * 4096 + (v2 - 128) * 64 + (v3 - 128)
        if isCont v1 ∧ isCont v2 ∧ isCont v3 ∧ 65536 ≤ cp ∧ cp < 1114112 then
          (decodeToks reserved rest3).map (fun cs => Char.ofNat cp :: cs)
        else none
      | _ => none
    else none

/-- The ECMAScript `Decode` operation. -/
def decode (reserved : List Char) (s : String) : Except Fault String :=
  match (tokens s.data).bind (decodeToks reserved) with
  | some cs => .ok (String.mk cs)
  | none => .error .URIError

/-- The builtin `decodeURIComponent`. -/
def decodeURIComponent (s : String) : Except Fault String := decode [] s

/-- The builtin `decodeURI`. -/
def decodeURI (s : String) : Except Fault String :=
  decode [';', '/', '?', ':', '@', '&', '=', '+', '$', ',', '#'] s

/-! ## Strings and the query object -/

/-- The builtin `String.prototype.split` with a one-character separator. -/
def splitChars (sep : Char) : List Char → List (List Char)
  | [] => [[]]
  | c :: cs =>
    match splitChars sep cs with
    | [] => [[]]
    | seg :: segs => if c = sep then [] :: seg :: segs else (c :: seg) :: segs

/-- The call `s.split(sep)`. -/
def split (s : String) (sep : Char) : List String :=
  (splitChars sep s.data).map String.mk

/-- The call `s.substring(1)`. -/
def substring1 (s : String) : String := String.mk (s.data.drop 1)

/-- The object `urlParams`: its own properties, the most recently assigned
first. -/
abbrev UrlParams := List (String × String)

/-- The expression `decodeURIComponent(tmp[0])` for `tmp = seg.split('=')`: the
decoded text before the first `=` of the segment. -/
def segName (seg : String) : Except Fault String :=
  decodeURIComponent ((split seg '=').headD "")

/-- The expression `decodeURIComponent(tmp[1])` for `tmp = seg.split('=')`: the
decoded text between the first and the second `=` of the segment; without any
`=`, `tmp[1]` is `undefined`, which decodes to the string `"undefined"`. -/
def segValue (seg : String) : Except Fault String :=
  decodeURIComponent (((split seg '=').drop 1).headD "undefined")

/-- The body of the loop over `searchSegs` for one segment:
`urlParams[decodeURIComponent(tmp[0])] = decodeURIComponent(tmp[1])`. -/
def urlParamsStep (urlParams : UrlParams) (seg : String) : Except Fault UrlParams :=
  match segName seg with
  | .error e => .error e
  | .ok name =>
    match segValue seg with
    | .error e => .error e
    | .ok value => .ok ((name, value) :: urlParams)

/-- The loop over `searchSegs`. -/
def urlParamsLoop (urlParams : UrlParams) : List String → Except Fault UrlParams
  | [] => .ok urlParams
  | seg :: segs =>
    match urlParamsStep urlParams seg with
    | .error e => .error e
    | .ok urlParams1 => urlParamsLoop urlParams1 segs

/-- The array `searchSegs`: the segments of the page's query string. -/
def searchSegs (w : Window) : List String := split (substring1 w.search) '&'

/-- The "get url params" block of `prepareConference`. -/
def getUrlParams (w : Window) : Except Fault UrlParams :=
  urlParamsLoop [] (searchSegs w)

/-- The block of `prepareConference` that fills in `params.key`: the value of
`params.key` after it. -/
def resolveKey (w : Window) (params : Params) (urlParams : UrlParams) :
    Except Fault (Option String) :=
  match params.key with
  | some k => .ok (some k)
  | none =>
    match urlParams.lookup "cowebkey" with
    | some k => .ok (some k)
    | none =>
      match decodeURI (w.host ++ w.pathname ++ w.search) with
      | .error e => .error e
      | .ok k => .ok (some k)

/-- The two blocks together, as `prepareConference` runs them: the query
parsing, then the choice of the key. -/
def keyFor (w : Window) (params : Params) : Except Fault (Option String) :=
  match getUrlParams w with
  | .error e => .error e
  | .ok urlParams => resolveKey w params urlParams

/-! ## The methods of `BayeuxSession` -/

/-- The method `init(params, listenerImpl)`.  Modelled from the spec: a bridge
made by `new SessionBridge(...)` starts in state `IDLE`. -/
def init (w : Window) (params : InitParams) (listenerImpl : Listener) (s : State) : Run Unit :=
  let self1 : BayeuxSession :=
    { s.self with
      _loginUrl := params.loginUrl, _logoutUrl := params.logoutUrl, _debug := params.debug,
      _listener := some listenerImpl, _bridge := some { state := .IDLE } }
  let made := Effect.bridgeNew params.debug params.adminUrl
  if w.addEventListener then
    match self1._unloadToks with
    | none =>
      ⟨{ s with self := self1 }, [made, .addEventListener "onbeforeunload"], .error .TypeError⟩
    | some .destroyFn =>
      ⟨{ s with self := self1 },
        [made, .addEventListener "onbeforeunload", .addEventListener "onunload"], .ok ()⟩
    | some (.object _ _) =>
      ⟨{ s with self := { self1 with _unloadToks := some (.object true true) } },
        [made, .addEventListener "onbeforeunload", .addEventListener "onunload"], .ok ()⟩
  else if w.attachEvent then
    ⟨{ s with self := { self1 with _unloadToks := some .destroyFn } },
      [made, .attachEvent "onbeforeunload", .attachEvent "onunload"], .ok ()⟩
  else ⟨{ s with self := self1 }, [made], .ok ()⟩

/-- The method `isDebug()`. -/
def isDebug (s : State) : Bool := s.self._debug

/-- The method `getConferenceParams()`. -/
def getConferenceParams (s : State) : Option Params := s.self._lastPrep

/-- The method `leaveConference()`.  The promise it resolves is the one it has
just made, which has no callbacks, so that resolve cannot throw. -/
def leaveConference (s : State) : Run Handle :=
  match s.self._bridge with
  | none => ⟨s, [], .error .TypeError⟩
  | some bridge =>
    let d := s.promises
    if bridge.state = .UPDATED then
      ⟨{ self := s.self, promises := s.promises + 1 },
        [.publishEnd true, .resolve d none, .bridgeLogout], .ok d⟩
    else
      ⟨{ self := { s.self with _prepParams := none }, promises := s.promises + 1 },
        [.publishBusy "aborting", .resolve d none, .bridgeLogout], .ok d⟩

/-- The method `destroy()`.  Its last block removes the unload listeners.
Where `window.addEventListener` exists, it calls
`window.removeEventListener(this._unloadToks.onbeforeunload)`, with one
argument: the call throws a `TypeError` (the method requires the event type and
the listener), as does the read of `onbeforeunload` when `_unloadToks` is
`null`, so `this._unloadToks = null` is not reached.  Elsewhere it calls
`window.detachEvent`, which throws a `TypeError` when the window has no
`detachEvent`. -/
def destroy (w : Window) (s : State) : Run Unit :=
  let s1 : State := { s with self := { s.self with _destroying := true } }
  match s1.self._bridge with
  | none => ⟨s1, [], .error .TypeError⟩
  | some bridge =>
    let ended : List Effect := if bridge.state = .UPDATED then [.publishEnd true] else []
    let r := leaveConference s1
    match r.completion with
    | .error e => ⟨r.state, ended ++ r.effects, .error e⟩
    | .ok _ =>
      match r.state.self._listener with
      | none => ⟨r.state, ended ++ r.effects, .error .TypeError⟩
      | some _ =>
        let self2 : BayeuxSession :=
          { r.state.self with
            _listener := none, _prepParams := none, _lastPrep := none, _bridge := none }
        let done := ended ++ r.effects ++ [.listenerDestroy, .bridgeDestroy]
        if w.addEventListener then ⟨{ r.state with self := self2 }, done, .error .TypeError⟩
        else if w.attachEvent then
          ⟨{ r.state with self := { self2 with _unloadToks := none } },
            done ++ [.detachEvent "onbeforeunload", .detachEvent "onunload"], .ok ()⟩
        else ⟨{ r.state with self := self2 }, done, .error .TypeError⟩

/-- The method `login(username, password)`.  Modelled from the spec:
`xhr.send` returns a new promise, the raw result of the request. -/
def login (username password : String) (s : State) : Run Handle :=
  match s.self._bridge with
  | none => ⟨s, [], .error .TypeError⟩
  | some bridge =>
    if bridge.state ≠ .IDLE then ⟨s, [], .error (.Error "login() not valid in current state")⟩
    else
      ⟨{ s with promises := s.promises + 2 },
        [.xhrSend "POST" s.self._loginUrl (some (username, password))], .ok (s.promises + 1)⟩

/-- The method `logout()`. -/
def logout (s : State) : Run Handle :=
  let r := leaveConference s
  match r.completion with
  | .error e => ⟨r.state, r.effects, .error e⟩
  | .ok _ =>
    ⟨{ r.state with promises := r.state.promises + 2 },
      r.effects ++ [.xhrSend "GET" r.state.self._logoutUrl none], .ok (r.state.promises + 1)⟩

/-- The method `prepareConference(params)`. -/
def prepareConference (w : Window) (params : Params) (s : State) : Run Handle :=
  match s.self._bridge with
  | none => ⟨s, [], .error .TypeError⟩
  | some bridge =>
    if bridge.state ≠ .IDLE then
      ⟨s, [], .error (.Error "prepareConference() not valid in current state")⟩
    else
      match getUrlParams w with
      | .error e => ⟨s, [], .error e⟩
      | .ok urlParams =>
        match resolveKey w params urlParams with
        | .error e => ⟨s, [], .error e⟩
        | .ok key =>
          let params1 : Params :=
            { params with key := key, autoUpdate := some (params.autoUpdate.getD true) }
          let d := s.promises
          ⟨{ self := { s.self with
                _prepParams := some { params := params1, deferred := some d, response := none },
                _lastPrep := some params1 },
             promises := s.promises + 1 },
            [.bridgePrepareConference params1.key params1.collab, .bridgeDisconnectThen,
              .publishBusy "preparing"],
            .ok d⟩

/-- The method `joinConference(nextDef)`. -/
def joinConference (nextDef : Option Handle) (s : State) : Run Handle :=
  match s.self._bridge with
  | none => ⟨s, [], .error .TypeError⟩
  | some bridge =>
    if bridge.state ≠ .PREPARED then
      ⟨s, [], .error (.Error "joinConference() not valid in current state")⟩
    else
      match s.self._prepParams with
      | none => ⟨s, [.publishBusy "joining"], .error .TypeError⟩
      | some prep =>
        let d := nextDef.getD s.promises
        ⟨{ self := { s.self with _prepParams := some { prep with deferred := some d } },
           promises := if nextDef.isSome then s.promises else s.promises + 1 },
          [.publishBusy "joining", .bridgeJoinConference], .ok d⟩

/-- The method `updateInConference(nextDef)`. -/
def updateInConference (nextDef : Option Handle) (s : State) : Run Handle :=
  match s.self._bridge with
  | none => ⟨s, [], .error .TypeError⟩
  | some bridge =>
    if bridge.state ≠ .JOINED then
      ⟨s, [], .error (.Error "updateInConference() not valid in current state")⟩
    else
      match s.self._prepParams with
      | none => ⟨s, [.publishBusy "updating"], .error .TypeError⟩
      | some prep =>
        let d := nextDef.getD s.promises
        ⟨{ self := { s.self with _prepParams := some { prep with deferred := some d } },
           promises := if nextDef.isSome then s.promises else s.promises + 1 },
          [.publishBusy "updating", .bridgeUpdateInConference], .ok d⟩

/-- The method `_onAppPrepareError(err)`. -/
def _onAppPrepareError (err : Fault) (s : State) : Run Unit :=
  let r := leaveConference s
  match r.completion with
  | .error e => ⟨r.state, .consoleError err.message :: r.effects, .error e⟩
  | .ok _ =>
    ⟨r.state, .consoleError err.message :: r.effects ++ [.publishBusy "bad-application-state"],
      .ok ()⟩

/-- The method `_onPrepared(params)`; `appFault` is the exception that
`def.resolve(params)` throws, if it throws. -/
def _onPrepared (params : Response) (appFault : Option Fault) (s : State) : Run Unit :=
  match s.self._prepParams with
  | none => ⟨s, [], .error .TypeError⟩
  | some prep =>
    let s1 : State :=
      { s with self := { s.self with _prepParams := some { prep with response := some params } } }
    match prep.deferred with
    | none => ⟨s1, [], .error .TypeError⟩
    | some d =>
      let nextDef : Option Handle := if truthy prep.params.autoJoin then some s1.promises else none
      let s2 : State :=
        if truthy prep.params.autoJoin then { s1 with promises := s1.promises + 1 } else s1
      let resolved : List Effect := [.thenErrback d, .resolve d (some ⟨some params, nextDef⟩)]
      match appFault with
      | some e =>
        let r := _onAppPrepareError e s2
        ⟨r.state, resolved ++ r.effects, r.completion⟩
      | none =>
        if truthy prep.params.autoJoin then
          let r := joinConference nextDef s2
          ⟨r.state, resolved ++ r.effects, r.completion.map (fun _ => ())⟩
        else ⟨s2, resolved, .ok ()⟩

/-- The method `_onPrepareError(err)`. -/
def _onPrepareError (err : Fault) (s : State) : Run Unit :=
  match s.self._prepParams with
  | none => ⟨s, [.publishBusy err.message], .error .TypeError⟩
  | some prep =>
    let s1 : State := { s with self := { s.self with _prepParams := none } }
    match prep.deferred with
    | none => ⟨s1, [.publishBusy err.message], .error .TypeError⟩
    | some d => ⟨s1, [.publishBusy err.message, .fail d err], .ok ()⟩

/-- The method `_onJoined()`; `appFault` is the exception that
`def.resolve(params)` throws, if it throws. -/
def _onJoined (appFault : Option Fault) (s : State) : Run Unit :=
  match s.self._prepParams with
  | none => ⟨s, [], .error .TypeError⟩
  | some prep =>
    match prep.deferred with
    | none => ⟨s, [], .error .TypeError⟩
    | some d =>
      let nextDef : Option Handle := if truthy prep.params.autoUpdate then some s.promises else none
      let s2 : State :=
        if truthy prep.params.autoUpdate then { s with promises := s.promises + 1 } else s
      let resolved : List Effect := [.thenErrback d, .resolve d (some ⟨none, nextDef⟩)]
      match appFault with
      | some e =>
        let r := _onAppPrepareError e s2
        ⟨r.state, resolved ++ r.effects, r.completion⟩
      | none =>
        if truthy prep.params.autoUpdate then
          let r := updateInConference nextDef s2
          ⟨r.state, resolved ++ r.effects, r.completion.map (fun _ => ())⟩
        else ⟨s2, resolved, .ok ()⟩

/-- The method `_onJoinError(err)`. -/
def _onJoinError (err : Fault) (s : State) : Run Unit :=
  match s.self._prepParams with
  | none => ⟨s, [], .error .TypeError⟩
  | some prep =>
    let s1 : State := { s with self := { s.self with _prepParams := none } }
    match prep.deferred with
    | none => ⟨s1, [], .error .TypeError⟩
    | some d => ⟨s1, [.fail d err], .ok ()⟩

/-- The method `_onUpdated()`; `appFault` is the exception that `def.resolve()`
throws, if it throws. -/
def _onUpdated (appFault : Option Fault) (s : State) : Run Unit :=
  match s.self._prepParams with
  | none => ⟨s, [], .error .TypeError⟩
  | some prepParams =>
    let s1 : State := { s with self := { s.self with _prepParams := none } }
    match prepParams.deferred with
    | none => ⟨s1, [], .error .TypeError⟩
    | some d =>
      match appFault with
      | some e => ⟨s1, [.resolve d none], .error e⟩
      | none => ⟨s1, [.resolve d none, .publishBusy "ready"], .ok ()⟩

/-- The method `_onUpdateError(err)`. -/
def _onUpdateError (err : Fault) (s : State) : Run Unit :=
  match s.self._prepParams with
  | none => ⟨s, [], .error .TypeError⟩
  | some prep =>
    let s1 : State := { s with self := { s.self with _prepParams := none } }
    match prep.deferred with
    | none => ⟨s1, [], .error .TypeError⟩
    | some d => ⟨s1, [.fail d err], .ok ()⟩

/-- The first statement of `_onDisconnected`:
`if(tag && !this._destroying) { OpenAjax.hub.publish(topics.BUSY, tag); }`. -/
def disconnectBusy (result : DisconnectResult) (s : State) : List Effect :=
  if truthyString result.tag && !s.self._destroying then [.publishBusy (result.tag.getD "")]
  else []

/-- The method `_onDisconnected(result)`. -/
def _onDisconnected (result : DisconnectResult) (s : State) : Run Unit :=
  let busy := disconnectBusy result s
  match s.self._bridge with
  | none => ⟨s, busy, .error .TypeError⟩
  | some _ =>
    let ended : List Effect := if result.state = .UPDATED then [.publishEnd false] else []
    match s.self._listener with
    | none => ⟨s, busy ++ ended, .error .TypeError⟩
    | some _ =>
      match s.self._prepParams with
      | none => ⟨s, busy ++ ended ++ [.listenerStop], .ok ()⟩
      | some prep =>
        if prep.deferred.isNone then
          ⟨{ s with self := { s.self with _prepParams := none } },
            busy ++ ended ++ [.listenerStop], .ok ()⟩
        else ⟨s, busy ++ ended ++ [.listenerStop], .ok ()⟩

/-! ## Sequences of calls -/

/-- A call into the controller: by the application, by the bridge delivering
an outcome to a continuation, or (`bridgeState`) the bridge changing the state
that `getState()` reports. -/
inductive Call where
  | init (params : InitParams) (listenerImpl : Listener)
  | destroy
  | leaveConference
  | login (username password : String)
  | logout
  | prepareConference (params : Params)
  | joinConference (nextDef : Option Handle)
  | updateInConference (nextDef : Option Handle)
  | _onPrepared (params : Response) (appFault : Option Fault)
  | _onPrepareError (err : Fault)
  | _onJoined (appFault : Option Fault)
  | _onJoinError (err : Fault)
  | _onUpdated (appFault : Option Fault)
  | _onUpdateError (err : Fault)
  | _onDisconnected (result : DisconnectResult)
  | bridgeState (p : Phase)

/-- Forgets the value a call returned. -/
def Run.unit {α : Type} (r : Run α) : Run Unit :=
  ⟨r.state, r.effects, r.completion.map (fun _ => ())⟩

/-- The environment step: the bridge, if there is one, reports state `p` from
now on. -/
def setBridgeState (p : Phase) (s : State) : State :=
  { s with self := { s.self with _bridge := s.self._bridge.map (fun _ => { state := p }) } }

/-- Performs one call. -/
def step (w : Window) (c : Call) (s : State) : Run Unit :=
  match c with
  | .init params listenerImpl => init w params listenerImpl s
  | .destroy => destroy w s
  | .leaveConference => (leaveConference s).unit
  | .login username password => (login username password s).unit
  | .logout => (logout s).unit
  | .prepareConference params => (prepareConference w params s).unit
  | .joinConference nextDef => (joinConference nextDef s).unit
  | .updateInConference nextDef => (updateInConference nextDef s).unit
  | ._onPrepared params appFault => _onPrepared params appFault s
  | ._onPrepareError err => _onPrepareError err s
  | ._onJoined appFault => _onJoined appFault s
  | ._onJoinError err => _onJoinError err s
  | ._onUpdated appFault => _onUpdated appFault s
  | ._onUpdateError err => _onUpdateError err s
  | ._onDisconnected result => _onDisconnected result s
  | .bridgeState p => ⟨setBridgeState p s, [], .ok ()⟩

/-- The outcome of a sequence of calls: the final state, all effects in order,
and the exceptions thrown, in order.  A call that throws does not stop the
calls after it. -/
structure Trace where
  state : State
  effects : List Effect
  thrown : List Fault
deriving DecidableEq

/-- Performs the calls one after the other, starting from `t`. -/
def runFrom (w : Window) (t : Trace) : List Call → Trace
  | [] => t
  | c :: cs =>
    let r := step w c t.state
    runFrom w
      ⟨r.state, t.effects ++ r.effects,
        match r.completion with
        | .error e => t.thrown ++ [e]
        | .ok _ => t.thrown⟩
      cs

/-- Performs the calls on a newly constructed controller. -/
def run (w : Window) (cs : List Call) : Trace :=
  runFrom w ⟨⟨BayeuxSession.new, 0⟩, [], []⟩ cs

/-! ## Observations on effects -/

/-- The effect is a publication on the hub. -/
def isPublish : Effect → Bool
  | .publishBusy _ => true
  | .publishEnd _ => true
  | _ => false

/-- The effect is an "ended" notification. -/
def isEnded : Effect → Bool
  | .publishEnd _ => true
  | _ => false

/-- The effect is a "busy" notification. -/
def isBusy : Effect → Bool
  | .publishBusy _ => true
  | _ => false

/-- The effect is a call of a bridge method. -/
def isBridgeCall : Effect → Bool
  | .bridgePrepareConference _ _ => true
  | .bridgeDisconnectThen => true
  | .bridgeJoinConference => true
  | .bridgeUpdateInConference => true
  | .bridgeLogout => true
  | .bridgeDestroy => true
  | _ => false

/-- The effect settles (resolves or fails) the promise `h`. -/
def settles (h : Handle) : Effect → Bool
  | .resolve h2 _ => h = h2
  | .fail h2 _ => h = h2
  | _ => false

/-! ## Example states -/

/-- A page without a query string. -/
def plainWindow : Window :=
  { host := "example.org", pathname := "/app", search := "",
    addEventListener := true, attachEvent := false }

/-- A controller after `new BayeuxSession()` and `init(...)`. -/
def started : State :=
  (init plainWindow
    { loginUrl := some "/login", logoutUrl := some "/logout", debug := false,
      adminUrl := some "/admin" }
    { name := "listener" } ⟨BayeuxSession.new, 0⟩).state

/-- Params with nothing specified: `{}`. -/
def noParams : Params := { key := none, collab := none, autoJoin := none, autoUpdate := none }

/-- A full lifecycle up to phase Updated, followed by `destroy()`. -/
def lifecycleThenDestroy : List Call :=
  [ .init { loginUrl := some "/login", logoutUrl := some "/logout", debug := false,
            adminUrl := some "/admin" } { name := "listener" },
    .prepareConference { noParams with autoJoin := some true },
    .bridgeState .PREPARED,
    ._onPrepared { data := "info" } none,
    .bridgeState .JOINED,
    ._onJoined none,
    .bridgeState .UPDATED,
    ._onUpdated none,
    .destroy ]

/-- A controller whose `prepareConference({autoJoin: true})` is in flight, the
bridge having reached state PREPARED. -/
def autoJoinPrepared : State :=
  (run plainWindow
    [ .init { loginUrl := some "/login", logoutUrl := some "/logout", debug := false,
              adminUrl := some "/admin" } { name := "listener" },
      .prepareConference { noParams with autoJoin := some true },
      .bridgeState .PREPARED ]).state

/-- The calls that are a delivery to the disconnect watcher. -/
def Call.isDisconnect : Call → Bool
  | ._onDisconnected _ => true
  | _ => false

/-- A prepare is started, the application leaves while it is in flight, and
the bridge then delivers the failure of the prepare. -/
def leaveDuringPrepare : List Call :=
  [ .init { loginUrl := some "/login", logoutUrl := some "/logout", debug := false,
            adminUrl := some "/admin" } { name := "listener" },
    .prepareConference noParams,
    .leaveConference,
    ._onPrepareError (.Error "session unavailable") ]

/-- The state of `leaveDuringPrepare` before the application leaves: the
prepare is in flight. -/
def prepareInFlight : State := (run plainWindow (leaveDuringPrepare.take 2)).state

/-- A page in a browser that has `attachEvent` and `detachEvent` and no
`addEventListener`. -/
def legacyWindow : Window :=
  { host := "example.org", pathname := "/app", search := "",
    addEventListener := false, attachEvent := true }

/-- A controller after `new BayeuxSession()` and `init(...)` on `legacyWindow`. -/
def startedLegacy : State :=
  (init legacyWindow
    { loginUrl := some "/login", logoutUrl := some "/logout", debug := false,
      adminUrl := some "/admin" }
    { name := "listener" } ⟨BayeuxSession.new, 0⟩).state

/-- A controller whose update is in flight: the prepare asked for `autoJoin`,
the join and the update were started automatically, and the bridge has reached
state UPDATED. -/
def updateInFlight : State :=
  (run plainWindow
    [ .init { loginUrl := some "/login", logoutUrl := some "/logout", debug := false,
              adminUrl := some "/admin" } { name := "listener" },
      .prepareConference { noParams with autoJoin := some true },
      .bridgeState .PREPARED,
      ._onPrepared { data := "info" } none,
      .bridgeState .JOINED,
      ._onJoined none,
      .bridgeState .UPDATED ]).state

/-- The calls that can set a present prep context to absent: the failure
continuations, the update-success continuation, `leaveConference` and its
callers (`logout`, `destroy`, and, through `_onAppPrepareError`, the prepare
and join continuations whose resolve throws), and the disconnect watcher. -/
def Call.clearsContext : Call → Bool
  | .leaveConference => true
  | .logout => true
  | .destroy => true
  | ._onPrepareError _ => true
  | ._onJoinError _ => true
  | ._onUpdateError _ => true
  | ._onUpdated _ => true
  | ._onPrepared _ (some _) => true
  | ._onJoined (some _) => true
  | ._onDisconnected _ => true
  | _ => false

/-- A controller whose join is in flight: the prepare of `autoJoinPrepared` has
succeeded, the join was started automatically, and the bridge has reached
state JOINED. -/
def joinInFlight : State :=
  setBridgeState .JOINED (_onPrepared { data := "info" } none autoJoinPrepared).state

/-- The prep context, when present, has a completion handle attached. -/
def handleAttached (s : State) : Bool :=
  match s.self._prepParams with
  | none => true
  | some prep => prep.deferred.isSome

/-! ## Auxiliary facts -/

/-- The decoders throw nothing but `URIError`. -/
theorem decode_error (reserved : List Char) (s : String) (e : Fault)
    (h : decode reserved s = .error e) : e = .URIError := by
  unfold decode at h
  split at h
  · cases h
  · cases h; rfl

theorem urlParamsStep_error (urlParams : UrlParams) (seg : String) (e : Fault)
    (h : urlParamsStep urlParams seg = .error e) : e = .URIError := by
  unfold urlParamsStep at h
  split at h
  · next e1 h1 => cases h; exact decode_error _ _ _ h1
  · split at h
    · next e2 h2 => cases h; exact decode_error _ _ _ h2
    · cases h

theorem urlParamsLoop_error (segs : List String) (urlParams : UrlParams) (e : Fault)
    (h : urlParamsLoop urlParams segs = .error e) : e = .URIError := by
  induction segs generalizing urlParams with
  | nil => cases h
  | cons seg segs ih =>
    unfold urlParamsLoop at h
    split at h
    · next e1 h1 => cases h; exact urlParamsStep_error _ _ _ h1
    · exact ih _ h

theorem resolveKey_error (w : Window) (params : Params) (urlParams : UrlParams) (e : Fault)
    (h : resolveKey w params urlParams = .error e) : e = .URIError := by
  unfold resolveKey at h
  split at h
  · cases h
  · split at h
    · cases h
    · split at h
      · next e1 h1 => cases h; exact decode_error _ _ _ h1
      · cases h

theorem keyFor_error (w : Window) (params : Params) (e : Fault)
    (h : keyFor w params = .error e) : e = .URIError := by
  unfold keyFor at h
  split at h
  · next e1 h1 => cases h; exact urlParamsLoop_error _ _ _ h1
  · exact resolveKey_error _ _ _ _ h

/-- The method `prepareConference` in terms of `keyFor`. -/
theorem prepareConference_eq (w : Window) (params : Params) (s : State)
    (bridge : SessionBridge) (hb : s.self._bridge = some bridge) :
    prepareConference w params s =
      if bridge.state ≠ .IDLE then
        ⟨s, [], .error (.Error "prepareConference() not valid in current state")⟩
      else
        match keyFor w params with
        | .error e => ⟨s, [], .error e⟩
        | .ok key =>
          ⟨{ self := { s.self with
                _prepParams := some
                  { params := { params with
                      key := key, autoUpdate := some (params.autoUpdate.getD true) },
                    deferred := some s.promises, response := none },
                _lastPrep := some { params with
                  key := key, autoUpdate := some (params.autoUpdate.getD true) } },
             promises := s.promises + 1 },
            [.bridgePrepareConference key params.collab, .bridgeDisconnectThen,
              .publishBusy "preparing"],
            .ok s.promises⟩ := by
  unfold prepareConference keyFor
  simp only [hb]
  split
  · rfl
  · cases getUrlParams w with
    | error e => rfl
    | ok urlParams =>
      cases resolveKey w params urlParams with
      | error e => rfl
      | ok key => rfl


/-! ## C1: the phase guards -/

/-- C1, counterexample: the claim says `prepareConference` throws only when the
phase is not Idle, but on a page whose query string is `?%` it throws (a
`URIError` from `decodeURIComponent`) in phase Idle. -/
theorem prepareConference_throws_in_idle :
    started.self._bridge = some { state := .IDLE } ∧
    ¬ ((prepareConference { plainWindow with search := "?%" } noParams started).throws = true
        ↔ Phase.IDLE ≠ Phase.IDLE) := by
  decide

/-- C1, as amended: for every bridge phase, `prepareConference`,
`joinConference` and `updateInConference` throw their invalid-state error if
and only if the phase is not Idle, not Prepared, not Joined respectively, and
then nothing is published, no bridge method is called, and the whole state
(prep context, public snapshot, bridge phase) is unchanged.  In phase Idle
`prepareConference` throws exactly when the key resolution throws a
`URIError`, again without any effect or state change; with a prep context
present, `joinConference` and `updateInConference` throw exactly when the
phase is not the required one. -/
theorem phase_guards (w : Window) (params : Params) (nextDef : Option Handle) (s : State)
    (bridge : SessionBridge) (hb : s.self._bridge = some bridge) :
    ((prepareConference w params s).completion
        = .error (.Error "prepareConference() not valid in current state")
      ↔ bridge.state ≠ .IDLE) ∧
    ((joinConference nextDef s).completion
        = .error (.Error "joinConference() not valid in current state")
      ↔ bridge.state ≠ .PREPARED) ∧
    ((updateInConference nextDef s).completion
        = .error (.Error "updateInConference() not valid in current state")
      ↔ bridge.state ≠ .JOINED) ∧
    (bridge.state ≠ .IDLE →
      (prepareConference w params s).state = s ∧ (prepareConference w params s).effects = []) ∧
    (bridge.state ≠ .PREPARED →
      (joinConference nextDef s).state = s ∧ (joinConference nextDef s).effects = []) ∧
    (bridge.state ≠ .JOINED →
      (updateInConference nextDef s).state = s ∧ (updateInConference nextDef s).effects = []) ∧
    ((prepareConference w params s).throws = true ↔
      bridge.state ≠ .IDLE ∨ keyFor w params = .error .URIError) ∧
    ((prepareConference w params s).throws = true →
      (prepareConference w params s).state = s ∧ (prepareConference w params s).effects = []) ∧
    (s.self._prepParams ≠ none →
      ((joinConference nextDef s).throws = true ↔ bridge.state ≠ .PREPARED)) ∧
    (s.self._prepParams ≠ none →
      ((updateInConference nextDef s).throws = true ↔ bridge.state ≠ .JOINED)) := by
  rw [prepareConference_eq w params s bridge hb]
  refine ⟨?_, ?_, ?_, ?_, ?_, ?_, ?_, ?_, ?_, ?_⟩
  · by_cases hp : bridge.state = .IDLE
    · cases hk : keyFor w params with
      | error e => have := keyFor_error _ _ _ hk; subst this; simp [hp]
      | ok key => simp [hp]
    · simp [hp]
  · by_cases hp : bridge.state = .PREPARED
    · cases hpp : s.self._prepParams <;> simp [joinConference, hb, hp, hpp]
    · simp [joinConference, hb, hp]
  · by_cases hp : bridge.state = .JOINED
    · cases hpp : s.self._prepParams <;> simp [updateInConference, hb, hp, hpp]
    · simp [updateInConference, hb, hp]
  · intro hp; simp [hp]
  · intro hp; simp [joinConference, hb, hp]
  · intro hp; simp [updateInConference, hb, hp]
  · by_cases hp : bridge.state = .IDLE
    · cases hk : keyFor w params with
      | error e => have := keyFor_error _ _ _ hk; subst this; simp [hp, Run.throws]
      | ok key => simp [hp, Run.throws]
    · simp [hp, Run.throws]
  · by_cases hp : bridge.state = .IDLE
    · cases hk : keyFor w params with
      | error e => simp [hp]
      | ok key => simp [hp, Run.throws]
    · simp [hp]
  · intro hpp
    by_cases hp : bridge.state = .PREPARED
    · cases hq : s.self._prepParams with
      | none => exact absurd hq hpp
      | some prep => simp [joinConference, hb, hp, hq, Run.throws]
    · simp [joinConference, hb, hp, Run.throws]
  · intro hpp
    by_cases hp : bridge.state = .JOINED
    · cases hq : s.self._prepParams with
      | none => exact absurd hq hpp
      | some prep => simp [updateInConference, hb, hp, hq, Run.throws]
    · simp [updateInConference, hb, hp, Run.throws]

/-- C1, witness: the guards on an initialised controller in phase Idle. -/
theorem phase_guards_witness :
    started.self._bridge = some { state := .IDLE } ∧
    ((joinConference none started).completion
        = .error (.Error "joinConference() not valid in current state")
      ↔ Phase.IDLE ≠ Phase.PREPARED) :=
  ⟨by decide, (phase_guards plainWindow noParams none started { state := .IDLE } (by decide)).2.1⟩

/-! ## C2: the "ended" notifications of `destroy` -/

/-- The number of "ended" notifications `destroy()` publishes, for every state with a
bridge: two in phase Updated (its own and the one of the `leaveConference` it
calls), none in the other phases. -/
theorem destroy_ended_count (w : Window) (s : State) (bridge : SessionBridge)
    (hb : s.self._bridge = some bridge) :
    ((destroy w s).effects.filter isEnded).length = if bridge.state = .UPDATED then 2 else 0 := by
  unfold destroy leaveConference
  simp only [hb]
  by_cases hp : bridge.state = .UPDATED
  · simp only [hp, if_true]
    cases s.self._listener with
    | none => simp [isEnded]
    | some l =>
      cases w.addEventListener <;> cases w.attachEvent <;> simp [isEnded]
  · simp only [hp, if_false]
    cases s.self._listener with
    | none => simp [isEnded]
    | some l =>
      cases w.addEventListener <;> cases w.attachEvent <;> simp [isEnded]

/-- C2: after a normal lifecycle has reached phase Updated, `destroy()` publishes
two "ended" notifications, not one: the calls before it publish none and none
of them throws, and both notifications carry `connected: true`.  (The only
exception of the sequence is the one `destroy()` throws afterwards, when it
removes the unload listeners.) -/
theorem destroy_publishes_ended_twice :
    (run plainWindow lifecycleThenDestroy).effects.filter isEnded
      = [.publishEnd true, .publishEnd true] ∧
    (run plainWindow lifecycleThenDestroy.dropLast).effects.filter isEnded = [] ∧
    (run plainWindow lifecycleThenDestroy.dropLast).state.self._bridge
      = some { state := .UPDATED } ∧
    (run plainWindow lifecycleThenDestroy.dropLast).thrown = [] ∧
    (run plainWindow lifecycleThenDestroy).thrown = [.TypeError] := by
  decide

/-! ## C3: `leaveConference` -/

/-- C3: for every state with a bridge, `leaveConference()` in phase Updated
publishes exactly `ended {connected: true}` (so no busy notification) and
leaves the prep context unchanged; in any other phase it publishes exactly
`busy "aborting"` (so no "ended" notification) and sets the prep context to
absent. -/
theorem leaveConference_publishes (s : State) (bridge : SessionBridge)
    (hb : s.self._bridge = some bridge) :
    (bridge.state = .UPDATED →
      (leaveConference s).effects.filter isPublish = [.publishEnd true] ∧
      (leaveConference s).state.self._prepParams = s.self._prepParams) ∧
    (bridge.state ≠ .UPDATED →
      (leaveConference s).effects.filter isPublish = [.publishBusy "aborting"] ∧
      (leaveConference s).state.self._prepParams = none) := by
  unfold leaveConference
  simp only [hb]
  constructor
  · intro hp; simp [hp, isPublish]
  · intro hp; simp [hp, isPublish]

/-- C3, witness: aborting from phase Idle on an initialised controller. -/
theorem leaveConference_publishes_witness :
    started.self._bridge = some { state := .IDLE } ∧
    (leaveConference started).effects.filter isPublish = [.publishBusy "aborting"] ∧
    (leaveConference started).state.self._prepParams = none :=
  ⟨by decide, (leaveConference_publishes started { state := .IDLE } (by decide)).2 (by decide)⟩

/-! ## C4: the automatic join after a successful prepare -/

/-- C4: take a state with a bridge and a prep context holding the handle `d`,
and let the bridge deliver the prepare response while the resolve does not
throw.  `joinConference` is invoked (it publishes `busy "joining"` or throws
its invalid-state error) if and only if `autoJoin` is truthy in the prep
context, which holds the `autoJoin` given to `prepareConference`.  When it is
invoked in phase Prepared, the handle sent as `nextDef` in the resolved payload
is a new one, it becomes the context's completion handle, and the join outcome
settles it: `_onJoinError` fails it, `_onJoined` resolves it.  Without
`autoJoin` only `d` is resolved, with no `nextDef`, and the bridge's join is
not called. -/
theorem onPrepared_autoJoin (params : Response) (s : State) (prep : PrepParams) (d : Handle)
    (bridge : SessionBridge) (hb : s.self._bridge = some bridge)
    (hp : s.self._prepParams = some prep) (hd : prep.deferred = some d) :
    ((Effect.publishBusy "joining" ∈ (_onPrepared params none s).effects ∨
        (_onPrepared params none s).completion
          = .error (.Error "joinConference() not valid in current state"))
      ↔ truthy prep.params.autoJoin = true) ∧
    (truthy prep.params.autoJoin = false →
      (_onPrepared params none s).completion = .ok () ∧
      (_onPrepared params none s).effects
        = [.thenErrback d, .resolve d (some ⟨some params, none⟩)] ∧
      (_onPrepared params none s).state.self._prepParams
        = some { prep with response := some params }) ∧
    (truthy prep.params.autoJoin = true → bridge.state = .PREPARED →
      (_onPrepared params none s).completion = .ok () ∧
      (_onPrepared params none s).effects
        = [.thenErrback d, .resolve d (some ⟨some params, some s.promises⟩),
            .publishBusy "joining", .bridgeJoinConference] ∧
      (_onPrepared params none s).state.self._prepParams
        = some { prep with response := some params, deferred := some s.promises } ∧
      (∀ err, (_onJoinError err (_onPrepared params none s).state).effects
        = [.fail s.promises err]) ∧
      (∀ appFault, ∃ value,
        (_onJoined appFault (_onPrepared params none s).state).effects.filter (settles s.promises)
          = [.resolve s.promises value])) ∧
    (truthy prep.params.autoJoin = true → bridge.state ≠ .PREPARED →
      (_onPrepared params none s).completion
        = .error (.Error "joinConference() not valid in current state") ∧
      (_onPrepared params none s).effects
        = [.thenErrback d, .resolve d (some ⟨some params, some s.promises⟩)]) ∧
    (∀ (w : Window) (given : Params) (s0 : State) (h : Handle),
      (prepareConference w given s0).completion = .ok h →
      ∃ prep0, (prepareConference w given s0).state.self._prepParams = some prep0 ∧
        prep0.params.autoJoin = given.autoJoin ∧ prep0.deferred = some h) := by
  refine ⟨?_, ?_, ?_, ?_, ?_⟩
  · by_cases ha : truthy prep.params.autoJoin = true
    · by_cases hs : bridge.state = .PREPARED
      · simp [_onPrepared, joinConference, Except.map, hb, hp, hd, ha, hs]
      · simp [_onPrepared, joinConference, Except.map, hb, hp, hd, ha, hs]
    · simp [_onPrepared, hb, hp, hd, ha]
  · intro ha
    simp [_onPrepared, hb, hp, hd, ha]
  · intro ha hs
    refine ⟨?_, ?_, ?_, ?_, ?_⟩
    · simp [_onPrepared, joinConference, Except.map, hb, hp, hd, ha, hs]
    · simp [_onPrepared, joinConference, Except.map, hb, hp, hd, ha, hs]
    · simp [_onPrepared, joinConference, Except.map, hb, hp, hd, ha, hs]
    · intro err
      simp [_onPrepared, joinConference, _onJoinError, hb, hp, hd, ha, hs]
    · intro appFault
      cases appFault with
      | none =>
        by_cases hu : truthy prep.params.autoUpdate = true
        · refine ⟨some ⟨none, some (s.promises + 1)⟩, ?_⟩
          simp [_onPrepared, joinConference, _onJoined, updateInConference, hb, hp, hd, ha, hs,
            hu, settles, List.filter]
        · refine ⟨some ⟨none, none⟩, ?_⟩
          simp [_onPrepared, joinConference, _onJoined, updateInConference, hb, hp, hd, ha, hs,
            hu, settles, List.filter]
      | some e =>
        have hne : ¬ (s.promises = s.promises + 1 + 1) := by omega
        by_cases hu : truthy prep.params.autoUpdate = true
        · refine ⟨some ⟨none, some (s.promises + 1)⟩, ?_⟩
          simp [_onPrepared, joinConference, _onJoined, _onAppPrepareError, leaveConference,
            hb, hp, hd, ha, hs, hu, hne, settles, List.filter]
        · refine ⟨some ⟨none, none⟩, ?_⟩
          simp [_onPrepared, joinConference, _onJoined, _onAppPrepareError, leaveConference,
            hb, hp, hd, ha, hs, hu, hne, settles, List.filter]
  · intro ha hs
    simp [_onPrepared, joinConference, Except.map, hb, hp, hd, ha, hs]
  · intro w given s0 h hc
    unfold prepareConference at hc ⊢
    cases hb0 : s0.self._bridge with
    | none => simp [hb0] at hc
    | some b0 =>
      simp only [hb0] at hc ⊢
      by_cases hs0 : b0.state = .IDLE
      · simp only [hs0, ne_eq, not_true_eq_false, if_false] at hc ⊢
        cases hu : getUrlParams w with
        | error e => simp [hu] at hc
        | ok ups =>
          simp only [hu] at hc ⊢
          cases hr : resolveKey w given ups with
          | error e => simp [hr] at hc
          | ok k =>
            simp only [hr] at hc ⊢
            simp at hc
            simp [hc]
      · simp [hs0] at hc

/-- C4, witness: the prepare response arrives on `autoJoinPrepared`; promise 0
is resolved with `nextDef` 1 and the join starts. -/
theorem onPrepared_autoJoin_witness :
    autoJoinPrepared.self._bridge = some { state := .PREPARED } ∧
    (_onPrepared { data := "info" } none autoJoinPrepared).effects
      = [.thenErrback 0, .resolve 0 (some ⟨some { data := "info" }, some 1⟩),
          .publishBusy "joining", .bridgeJoinConference] :=
  ⟨by decide,
    ((onPrepared_autoJoin { data := "info" } autoJoinPrepared
        { params := { key := some "example.org/app", collab := none, autoJoin := some true,
                      autoUpdate := some true },
          deferred := some 0, response := none }
        0 { state := .PREPARED } (by decide) (by decide) (by decide)).2.2.1
      (by decide) (by decide)).2.1⟩

/-! ## C5: the transport-failure continuations -/

/-- C5: in every state whose prep context holds the handle `d`, and for every
error, `_onPrepareError` publishes `busy` with the error's message and then
fails `d` with the error, `_onJoinError` and `_onUpdateError` only fail `d`
with the error; these are all the effects (so `d` is failed once and never
resolved, no "ended" notification is published and the bridge's logout is not
called), none of them throws, and the state they leave is the one before with
the prep context absent. -/
theorem transport_failure (err : Fault) (s : State) (prep : PrepParams) (d : Handle)
    (hp : s.self._prepParams = some prep) (hd : prep.deferred = some d) :
    ((_onPrepareError err s).effects = [.publishBusy err.message, .fail d err] ∧
      (_onPrepareError err s).completion = .ok () ∧
      (_onPrepareError err s).state = { s with self := { s.self with _prepParams := none } }) ∧
    ((_onJoinError err s).effects = [.fail d err] ∧
      (_onJoinError err s).completion = .ok () ∧
      (_onJoinError err s).state = { s with self := { s.self with _prepParams := none } }) ∧
    ((_onUpdateError err s).effects = [.fail d err] ∧
      (_onUpdateError err s).completion = .ok () ∧
      (_onUpdateError err s).state = { s with self := { s.self with _prepParams := none } }) := by
  simp [_onPrepareError, _onJoinError, _onUpdateError, hp, hd]

/-- C5, witness: the prepare of `autoJoinPrepared` fails instead. -/
theorem transport_failure_witness :
    (_onPrepareError (.Error "no session") autoJoinPrepared).effects
      = [.publishBusy "no session", .fail 0 (.Error "no session")] :=
  (transport_failure (.Error "no session") autoJoinPrepared
    { params := { key := some "example.org/app", collab := none, autoJoin := some true,
                  autoUpdate := some true },
      deferred := some 0, response := none }
    0 (by decide) (by decide)).1.1

/-! ## C6: the busy notification of the disconnect watcher -/

/-- The effects of `_onDisconnected` are its busy notification followed by
effects among `ended {connected: false}` and the listener's `stop`. -/
theorem onDisconnected_effects (result : DisconnectResult) (s : State) :
    ∃ rest, (_onDisconnected result s).effects = disconnectBusy result s ++ rest ∧
      ∀ e ∈ rest, e = Effect.publishEnd false ∨ e = Effect.listenerStop := by
  unfold _onDisconnected
  simp only []
  cases s.self._bridge with
  | none => exact ⟨[], by simp, by simp⟩
  | some b =>
    cases s.self._listener with
    | none =>
      refine ⟨if result.state = .UPDATED then [.publishEnd false] else [], by simp, ?_⟩
      intro e he
      split at he <;> simp at he
      exact Or.inl he
    | some l =>
      refine ⟨(if result.state = .UPDATED then [.publishEnd false] else []) ++ [.listenerStop],
        ?_, ?_⟩
      · cases s.self._prepParams with
        | none => simp
        | some prep => simp only []; split <;> simp
      · intro e he
        split at he <;> simp at he
        · exact he.imp id id
        · exact Or.inr he

/-- C6, counterexample: a disconnect result whose tag is present but is the
empty string, on a controller that is not being destroyed: the claim says
`busy` is published, and it is not, because `tag && ...` is false for `""`. -/
theorem onDisconnected_empty_tag :
    (DisconnectResult.mk .IDLE (some "")).tag.isSome = true ∧
    started.self._destroying = false ∧
    (_onDisconnected ⟨.IDLE, some ""⟩ started).effects.filter isBusy = [] := by
  decide

/-- C6, as amended: for every disconnect result and every state,
`_onDisconnected` publishes `busy t` if and only if the tag is the non-empty
string `t` and the destroying flag is not set, and it publishes no other busy
notification; `destroy()` always leaves the destroying flag set, so after it a
disconnect notification publishes no busy notification whatever its tag. -/
theorem onDisconnected_busy (result : DisconnectResult) (s : State) :
    (∀ t, Effect.publishBusy t ∈ (_onDisconnected result s).effects ↔
      (result.tag = some t ∧ t ≠ "" ∧ s.self._destroying = false)) ∧
    ((_onDisconnected result s).effects.filter isBusy).length ≤ 1 ∧
    (s.self._destroying = true → (_onDisconnected result s).effects.filter isBusy = []) ∧
    (∀ w : Window, (destroy w s).state.self._destroying = true ∧
      (_onDisconnected result (destroy w s).state).effects.filter isBusy = []) := by
  have rest_not_busy : ∀ rest : List Effect,
      (∀ e ∈ rest, e = Effect.publishEnd false ∨ e = Effect.listenerStop) →
      rest.filter isBusy = [] := by
    intro rest hrest
    rw [List.filter_eq_nil_iff]
    intro e he
    rcases hrest e he with h | h <;> simp [h, isBusy]
  have quiet : ∀ s1 : State, s1.self._destroying = true →
      (_onDisconnected result s1).effects.filter isBusy = [] := by
    intro s1 hdes
    obtain ⟨rest, heq, hrest⟩ := onDisconnected_effects result s1
    rw [heq, List.filter_append, rest_not_busy rest hrest]
    unfold disconnectBusy
    cases result.tag <;> simp [hdes]
  obtain ⟨rest, heq, hrest⟩ := onDisconnected_effects result s
  refine ⟨?_, ?_, quiet s, ?_⟩
  · intro t
    rw [heq, List.mem_append]
    have hnot : Effect.publishBusy t ∉ rest := by
      intro hmem
      rcases hrest _ hmem with h | h <;> cases h
    unfold disconnectBusy
    cases htag : result.tag with
    | none => simp [hnot, truthyString]
    | some tag =>
      by_cases ht : tag = "" <;> cases hdes : s.self._destroying <;>
        simp [truthyString, ht, hdes, hnot]
      · intro h1; exact h1.symm
      · constructor
        · rintro rfl; exact ⟨rfl, ht⟩
        · rintro ⟨rfl, _⟩; rfl
  · rw [heq, List.filter_append, rest_not_busy rest hrest]
    unfold disconnectBusy
    split <;> simp [isBusy]
  · intro w
    have hdes : (destroy w s).state.self._destroying = true := by
      unfold destroy leaveConference
      cases hb : s.self._bridge with
      | none => simp [hb]
      | some b =>
        simp only [hb]
        by_cases hp : b.state = .UPDATED
        · simp only [hp, if_true]
          cases s.self._listener with
          | none => simp
          | some l => cases w.addEventListener <;> cases w.attachEvent <;> simp
        · simp only [hp, if_false]
          cases s.self._listener with
          | none => simp
          | some l => cases w.addEventListener <;> cases w.attachEvent <;> simp
    exact ⟨hdes, quiet _ hdes⟩

/-! ## C7: the "ended" notification of the disconnect watcher -/

/-- No call other than `_onDisconnected` publishes `ended {connected: false}`. -/
theorem others_no_disconnect_end (w : Window) (c : Call) (s : State)
    (hc : c.isDisconnect = false) :
    Effect.publishEnd false ∉ (step w c s).effects := by
  rcases s with ⟨⟨pp, lp, dbg, br, li, des, ut, lu, lo⟩, n⟩
  cases c with
  | _onDisconnected result => simp [Call.isDisconnect] at hc
  | init params listenerImpl =>
    cases h1 : w.addEventListener <;> cases h2 : w.attachEvent <;>
      rcases ut with _ | _ | _ <;> simp [step, init, h1, h2]
  | destroy =>
    rcases br with _ | ⟨⟨_ | _ | _ | _⟩⟩ <;> rcases li with _ | _ <;>
      cases h1 : w.addEventListener <;> cases h2 : w.attachEvent <;>
      simp [step, destroy, leaveConference, h1, h2]
  | leaveConference =>
    rcases br with _ | ⟨⟨_ | _ | _ | _⟩⟩ <;> simp [step, Run.unit, leaveConference]
  | login username password =>
    rcases br with _ | ⟨⟨_ | _ | _ | _⟩⟩ <;> simp [step, Run.unit, login]
  | logout =>
    rcases br with _ | ⟨⟨_ | _ | _ | _⟩⟩ <;> simp [step, Run.unit, logout, leaveConference]
  | prepareConference params =>
    rcases br with _ | ⟨⟨_ | _ | _ | _⟩⟩ <;> simp [step, Run.unit, prepareConference]
    cases hu : getUrlParams w with
    | error e => simp
    | ok urlParams => cases hr : resolveKey w params urlParams <;> simp [hr]
  | joinConference nextDef =>
    rcases br with _ | ⟨⟨_ | _ | _ | _⟩⟩ <;> rcases pp with _ | _ <;>
      simp [step, Run.unit, joinConference]
  | updateInConference nextDef =>
    rcases br with _ | ⟨⟨_ | _ | _ | _⟩⟩ <;> rcases pp with _ | _ <;>
      simp [step, Run.unit, updateInConference]
  | _onPrepared params appFault =>
    rcases pp with _ | ⟨prm, _ | d, resp⟩
    · simp [step, _onPrepared]
    · simp [step, _onPrepared]
    · rcases br with _ | ⟨⟨_ | _ | _ | _⟩⟩ <;> rcases appFault with _ | e <;>
        cases ha : truthy prm.autoJoin <;>
        simp [step, _onPrepared, joinConference, _onAppPrepareError, leaveConference, ha]
  | _onPrepareError err =>
    rcases pp with _ | ⟨prm, _ | d, resp⟩ <;> simp [step, _onPrepareError]
  | _onJoined appFault =>
    rcases pp with _ | ⟨prm, _ | d, resp⟩
    · simp [step, _onJoined]
    · simp [step, _onJoined]
    · rcases br with _ | ⟨⟨_ | _ | _ | _⟩⟩ <;> rcases appFault with _ | e <;>
        cases ha : truthy prm.autoUpdate <;>
        simp [step, _onJoined, updateInConference, _onAppPrepareError, leaveConference, ha]
  | _onJoinError err =>
    rcases pp with _ | ⟨prm, _ | d, resp⟩ <;> simp [step, _onJoinError]
  | _onUpdated appFault =>
    rcases pp with _ | ⟨prm, _ | d, resp⟩ <;> rcases appFault with _ | e <;>
      simp [step, _onUpdated]
  | _onUpdateError err =>
    rcases pp with _ | ⟨prm, _ | d, resp⟩ <;> simp [step, _onUpdateError]
  | bridgeState p => simp [step]

/-- C7: in every state with a bridge and a listener, and for every disconnect
result, `_onDisconnected` publishes `ended {connected: false}` if and only if
the reported state is UPDATED (it is then its only "ended" notification), calls
the listener's `stop()` exactly once and never its `destroy()`, and does not
throw; and no other call of the controller, in any state, publishes
`ended {connected: false}`. -/
theorem onDisconnected_ended (result : DisconnectResult) (s : State) (bridge : SessionBridge)
    (listener : Listener) (hb : s.self._bridge = some bridge)
    (hl : s.self._listener = some listener) :
    (Effect.publishEnd false ∈ (_onDisconnected result s).effects ↔ result.state = .UPDATED) ∧
    (_onDisconnected result s).effects.filter isEnded
      = (if result.state = .UPDATED then [.publishEnd false] else []) ∧
    (_onDisconnected result s).effects.count .listenerStop = 1 ∧
    Effect.listenerDestroy ∉ (_onDisconnected result s).effects ∧
    (_onDisconnected result s).completion = .ok () ∧
    (∀ (w : Window) (c : Call) (s1 : State), c.isDisconnect = false →
      Effect.publishEnd false ∉ (step w c s1).effects) := by
  refine ⟨?_, ?_, ?_, ?_, ?_, others_no_disconnect_end⟩ <;>
    rcases s with ⟨⟨pp, lp, dbg, br, li, des, ut, lu, lo⟩, n⟩ <;>
    simp only at hb hl <;> subst hb hl <;>
    rcases result with ⟨st, _ | tag⟩ <;>
    rcases pp with _ | ⟨prm, _ | d, resp⟩ <;>
    by_cases hst : st = .UPDATED <;>
    cases des <;>
    simp [_onDisconnected, disconnectBusy, hst, isEnded, List.count_cons, List.filter,
      truthyString] <;>
    by_cases ht : tag = "" <;>
    simp [ht, isEnded, List.count_cons, List.filter]

/-- C7, witness: the bridge reports a disconnect from state UPDATED to an
initialised controller. -/
theorem onDisconnected_ended_witness :
    started.self._bridge = some { state := .IDLE } ∧
    started.self._listener = some { name := "listener" } ∧
    (_onDisconnected ⟨.UPDATED, some "stream-error"⟩ started).effects.filter isEnded
      = [.publishEnd false] :=
  ⟨by decide, by decide,
    (onDisconnected_ended ⟨.UPDATED, some "stream-error"⟩ started { state := .IDLE }
      { name := "listener" } (by decide) (by decide)).2.1⟩

/-! ## C8: the application-prepare-error handler -/

/-- C8: in every state with a bridge, whatever the phase and the error,
`_onAppPrepareError` logs the error's message, then performs exactly the
effects and the state change of one `leaveConference()` call (among them
exactly one bridge `logout()`), then publishes `busy "bad-application-state"`,
which is its last effect; it returns normally (the error is not rethrown) and
starts no join and no update. -/
theorem onAppPrepareError_effects (err : Fault) (s : State) (bridge : SessionBridge)
    (hb : s.self._bridge = some bridge) :
    (_onAppPrepareError err s).completion = .ok () ∧
    (_onAppPrepareError err s).effects
      = .consoleError err.message :: (leaveConference s).effects
          ++ [.publishBusy "bad-application-state"] ∧
    (_onAppPrepareError err s).state = (leaveConference s).state ∧
    (_onAppPrepareError err s).effects.count .bridgeLogout = 1 ∧
    (_onAppPrepareError err s).effects.getLast? = some (.publishBusy "bad-application-state") ∧
    Effect.bridgeJoinConference ∉ (_onAppPrepareError err s).effects ∧
    Effect.bridgeUpdateInConference ∉ (_onAppPrepareError err s).effects ∧
    Effect.publishBusy "joining" ∉ (_onAppPrepareError err s).effects ∧
    Effect.publishBusy "updating" ∉ (_onAppPrepareError err s).effects := by
  by_cases hp : bridge.state = .UPDATED <;>
    simp [_onAppPrepareError, leaveConference, hb, hp, List.count_cons]

/-- C8, witness: the handler on an initialised controller in phase Idle. -/
theorem onAppPrepareError_effects_witness :
    started.self._bridge = some { state := .IDLE } ∧
    (_onAppPrepareError (.Error "boom") started).effects
      = [.consoleError "boom", .publishBusy "aborting", .resolve 0 none, .bridgeLogout,
          .publishBusy "bad-application-state"] :=
  ⟨by decide,
    (onAppPrepareError_effects (.Error "boom") started { state := .IDLE } (by decide)).2.1⟩

/-! ## C9: the session key -/

/-- C9: `prepareConference({})` in phase Idle on a page whose query string is
`?cowebkey`.  The segment has no `=`, so `tmp[1]` is `undefined`,
`decodeURIComponent(undefined)` is the string `"undefined"`, and the bridge
receives `"undefined"` as the session key, a text that is nowhere in the URL.
On `?cowebkey=a=b` the bridge receives `"a"`, the value cut at its second `=`.
At the other inputs the code does what the claim says: the caller's key goes
before the one in the URL, `?x=1&cowebkey=room%201` gives `room 1`, and without
either the key is the decoded host, path and query. -/
theorem prepareConference_key_undefined :
    started.self._bridge = some { state := .IDLE } ∧
    (prepareConference { plainWindow with search := "?cowebkey" } noParams started).effects
      = [.bridgePrepareConference (some "undefined") none, .bridgeDisconnectThen,
          .publishBusy "preparing"] ∧
    (prepareConference { plainWindow with search := "?cowebkey=a=b" } noParams started).effects
      = [.bridgePrepareConference (some "a") none, .bridgeDisconnectThen,
          .publishBusy "preparing"] ∧
    (prepareConference { plainWindow with search := "?cowebkey=room" }
        { noParams with key := some "mine" } started).effects
      = [.bridgePrepareConference (some "mine") none, .bridgeDisconnectThen,
          .publishBusy "preparing"] ∧
    (prepareConference { plainWindow with search := "?x=1&cowebkey=room%201" } noParams
        started).effects
      = [.bridgePrepareConference (some "room 1") none, .bridgeDisconnectThen,
          .publishBusy "preparing"] ∧
    (prepareConference { plainWindow with pathname := "/my%20app", search := "?x=1" } noParams
        started).effects
      = [.bridgePrepareConference (some "example.org/my app?x=1") none, .bridgeDisconnectThen,
          .publishBusy "preparing"] := by
  decide

/-! ## C10: settling the completion handle -/

/-- C10, counterexample: `prepareConference` returns promise 0 and holds it in
the prep context; `leaveConference()`, called while the prepare is in flight,
sets the context to absent; when the transport outcome is then delivered, the
continuation throws a `TypeError` on the missing context, and promise 0 has
not been settled anywhere in the sequence. -/
theorem handle_dropped_by_leave :
    ((run plainWindow (leaveDuringPrepare.take 2)).state.self._prepParams.map
      (fun prep => prep.deferred)) = some (some 0) ∧
    (run plainWindow (leaveDuringPrepare.take 2)).thrown = [] ∧
    (run plainWindow (leaveDuringPrepare.take 3)).state.self._prepParams = none ∧
    (run plainWindow leaveDuringPrepare).thrown = [.TypeError] ∧
    (run plainWindow leaveDuringPrepare).effects.filter (settles 0) = [] := by
  decide

/-- C10, as amended: in every state whose prep context holds an already
allocated handle `h`, each continuation settles `h` exactly once when the
transport outcome is delivered to it: the success continuations resolve it,
the failure continuations fail it with the error.  The handle a phase
operation returns is the one it puts in the prep context.  A
`leaveConference()` in a phase other than Updated sets the prep context to
absent without settling `h`. -/
theorem continuation_settles_once (s : State) (prep : PrepParams) (h : Handle)
    (hp : s.self._prepParams = some prep) (hd : prep.deferred = some h)
    (hlt : h < s.promises) :
    (∀ params appFault, ∃ value,
      (_onPrepared params appFault s).effects.filter (settles h) = [.resolve h value]) ∧
    (∀ err, (_onPrepareError err s).effects.filter (settles h) = [.fail h err]) ∧
    (∀ appFault, ∃ value,
      (_onJoined appFault s).effects.filter (settles h) = [.resolve h value]) ∧
    (∀ err, (_onJoinError err s).effects.filter (settles h) = [.fail h err]) ∧
    (∀ appFault, (_onUpdated appFault s).effects.filter (settles h) = [.resolve h none]) ∧
    (∀ err, (_onUpdateError err s).effects.filter (settles h) = [.fail h err]) ∧
    (∀ (w : Window) (params : Params) (s0 : State) (ret : Handle),
      (prepareConference w params s0).completion = .ok ret →
      ((prepareConference w params s0).state.self._prepParams.map fun p => p.deferred)
        = some (some ret)) ∧
    (∀ (nextDef : Option Handle) (s0 : State) (ret : Handle),
      (joinConference nextDef s0).completion = .ok ret →
      ((joinConference nextDef s0).state.self._prepParams.map fun p => p.deferred)
        = some (some ret)) ∧
    (∀ (nextDef : Option Handle) (s0 : State) (ret : Handle),
      (updateInConference nextDef s0).completion = .ok ret →
      ((updateInConference nextDef s0).state.self._prepParams.map fun p => p.deferred)
        = some (some ret)) ∧
    (∀ bridge : SessionBridge, s.self._bridge = some bridge → bridge.state ≠ .UPDATED →
      (leaveConference s).state.self._prepParams = none ∧
      (leaveConference s).effects.filter (settles h) = []) := by
  have hne : ¬ (h = s.promises) := Nat.ne_of_lt hlt
  have hne1 : ¬ (h = s.promises + 1) := Nat.ne_of_lt (Nat.lt_succ_of_lt hlt)
  rcases s with ⟨⟨pp, lp, dbg, br, li, des, ut, lu, lo⟩, n⟩
  simp only at hp hne hne1
  subst hp
  rcases prep with ⟨prm, df, resp⟩
  simp only at hd
  subst hd
  refine ⟨?_, ?_, ?_, ?_, ?_, ?_, ?_, ?_, ?_, ?_⟩
  · intro params appFault
    cases ha : truthy prm.autoJoin
    · refine ⟨some ⟨some params, none⟩, ?_⟩
      rcases br with _ | ⟨⟨_ | _ | _ | _⟩⟩ <;> rcases appFault with _ | e <;>
        simp [_onPrepared, joinConference, _onAppPrepareError, leaveConference, ha, settles,
          List.filter, hne, hne1]
    · refine ⟨some ⟨some params, some n⟩, ?_⟩
      rcases br with _ | ⟨⟨_ | _ | _ | _⟩⟩ <;> rcases appFault with _ | e <;>
        simp [_onPrepared, joinConference, _onAppPrepareError, leaveConference, ha, settles,
          List.filter, hne, hne1]
  · intro err
    simp [_onPrepareError, settles, List.filter]
  · intro appFault
    cases ha : truthy prm.autoUpdate
    · refine ⟨some ⟨none, none⟩, ?_⟩
      rcases br with _ | ⟨⟨_ | _ | _ | _⟩⟩ <;> rcases appFault with _ | e <;>
        simp [_onJoined, updateInConference, _onAppPrepareError, leaveConference, ha, settles,
          List.filter, hne, hne1]
    · refine ⟨some ⟨none, some n⟩, ?_⟩
      rcases br with _ | ⟨⟨_ | _ | _ | _⟩⟩ <;> rcases appFault with _ | e <;>
        simp [_onJoined, updateInConference, _onAppPrepareError, leaveConference, ha, settles,
          List.filter, hne, hne1]
  · intro err
    simp [_onJoinError, settles, List.filter]
  · intro appFault
    rcases appFault with _ | e <;> simp [_onUpdated, settles, List.filter]
  · intro err
    simp [_onUpdateError, settles, List.filter]
  · intro w params s0 ret hret
    rcases s0 with ⟨⟨pp0, lp0, dbg0, br0, li0, des0, ut0, lu0, lo0⟩, n0⟩
    rcases br0 with _ | ⟨⟨_ | _ | _ | _⟩⟩ <;> simp [prepareConference] at hret ⊢
    cases hu : getUrlParams w with
    | error e => simp [hu] at hret
    | ok urlParams =>
      cases hr : resolveKey w params urlParams with
      | error e => simp [hu, hr] at hret
      | ok key =>
        simp [hu, hr] at hret ⊢
        exact hret
  · intro nextDef s0 ret hret
    rcases s0 with ⟨⟨pp0, lp0, dbg0, br0, li0, des0, ut0, lu0, lo0⟩, n0⟩
    rcases br0 with _ | ⟨⟨_ | _ | _ | _⟩⟩ <;> rcases pp0 with _ | p0 <;>
      simp [joinConference] at hret ⊢
    exact hret
  · intro nextDef s0 ret hret
    rcases s0 with ⟨⟨pp0, lp0, dbg0, br0, li0, des0, ut0, lu0, lo0⟩, n0⟩
    rcases br0 with _ | ⟨⟨_ | _ | _ | _⟩⟩ <;> rcases pp0 with _ | p0 <;>
      simp [updateInConference] at hret ⊢
    exact hret
  · intro bridge hb hs
    simp only at hb
    subst hb
    simp [leaveConference, hs, settles, List.filter, hne]

/-- C10, witness: without the `leaveConference()`, the failure of the prepare
fails promise 0, once. -/
theorem continuation_settles_once_witness :
    prepareInFlight.self._prepParams.map (fun prep => prep.deferred) = some (some 0) ∧
    0 < prepareInFlight.promises ∧
    (_onPrepareError (.Error "session unavailable") prepareInFlight).effects.filter (settles 0)
      = [.fail 0 (.Error "session unavailable")] :=
  ⟨by decide, by decide,
    (continuation_settles_once prepareInFlight
      { params := { key := some "example.org/app", collab := none, autoJoin := none,
                    autoUpdate := some true },
        deferred := some 0, response := none }
      0 (by decide) (by decide) (by decide)).2.1 (.Error "session unavailable")⟩

/-! ## C11: what `leaveConference` returns -/

/-- C11: in every state with a bridge, whatever its phase, `leaveConference()`
does not throw, calls the bridge's `logout()` exactly once, and returns a
promise it has just made (no earlier promise has that number) and has already
resolved: among its effects that promise is resolved once, before the
`logout()`, and is not failed. -/
theorem leaveConference_returns_resolved (s : State) (bridge : SessionBridge)
    (hb : s.self._bridge = some bridge) :
    (leaveConference s).completion = .ok s.promises ∧
    (leaveConference s).state.promises = s.promises + 1 ∧
    (leaveConference s).effects.count .bridgeLogout = 1 ∧
    (leaveConference s).effects.filter (settles s.promises) = [.resolve s.promises none] ∧
    (∀ err, Effect.fail s.promises err ∉ (leaveConference s).effects) ∧
    (leaveConference s).effects.getLast? = some .bridgeLogout := by
  by_cases hp : bridge.state = .UPDATED <;>
    simp [leaveConference, hb, hp, settles, List.filter, List.count_cons]

/-- C11, witness: leaving from an initialised controller in phase Idle. -/
theorem leaveConference_returns_resolved_witness :
    started.self._bridge = some { state := .IDLE } ∧
    (leaveConference started).completion = .ok 0 ∧
    (leaveConference started).effects.filter (settles 0) = [.resolve 0 none] :=
  ⟨by decide,
    (leaveConference_returns_resolved started { state := .IDLE } (by decide)).1,
    (leaveConference_returns_resolved started { state := .IDLE } (by decide)).2.2.2.1⟩

/-! ## C12: the public snapshot -/

/-- C12: take a call of `prepareConference(params)` in phase Idle whose key
resolution gives `key`.  Afterwards `getConferenceParams()` returns the params
with `key` as their key and with `autoUpdate` set to `true` when the caller
left it undefined and to the caller's value otherwise, the other properties as
given; the snapshot is a `Params` object, without `deferred`.  The prep context
holds the same params, no response yet, and as `deferred` the promise the call
returns, which is new and is not settled by the call. -/
theorem prepareConference_snapshot (w : Window) (params : Params) (s : State)
    (bridge : SessionBridge) (key : Option String) (hb : s.self._bridge = some bridge)
    (hidle : bridge.state = .IDLE) (hk : keyFor w params = .ok key) :
    getConferenceParams (prepareConference w params s).state
      = some { key := key, collab := params.collab, autoJoin := params.autoJoin,
               autoUpdate := some (params.autoUpdate.getD true) } ∧
    (params.autoUpdate = none →
      (getConferenceParams (prepareConference w params s).state).map (fun p => p.autoUpdate)
        = some (some true)) ∧
    (∀ b, params.autoUpdate = some b →
      (getConferenceParams (prepareConference w params s).state).map (fun p => p.autoUpdate)
        = some (some b)) ∧
    (prepareConference w params s).state.self._prepParams
      = some { params := { key := key, collab := params.collab, autoJoin := params.autoJoin,
                           autoUpdate := some (params.autoUpdate.getD true) },
               deferred := some s.promises, response := none } ∧
    (prepareConference w params s).completion = .ok s.promises ∧
    (prepareConference w params s).state.promises = s.promises + 1 ∧
    (prepareConference w params s).effects.filter (settles s.promises) = [] := by
  rw [prepareConference_eq w params s bridge hb]
  simp only [hidle, ne_eq, not_true_eq_false, if_false, hk]
  refine ⟨rfl, ?_, ?_, trivial, trivial, trivial, ?_⟩
  · intro h; simp [getConferenceParams, h]
  · intro b h; simp [getConferenceParams, h]
  · simp [settles, List.filter]

/-- C12, witness: `prepareConference({autoUpdate: false})` on an initialised
controller, on a page without a query string. -/
theorem prepareConference_snapshot_witness :
    started.self._bridge = some { state := .IDLE } ∧
    keyFor plainWindow { noParams with autoUpdate := some false } = .ok (some "example.org/app") ∧
    getConferenceParams
        (prepareConference plainWindow { noParams with autoUpdate := some false } started).state
      = some { key := some "example.org/app", collab := none, autoJoin := none,
               autoUpdate := some false } :=
  ⟨by decide, by decide,
    (prepareConference_snapshot plainWindow { noParams with autoUpdate := some false } started
      { state := .IDLE } (some "example.org/app") (by decide) (by decide) (by decide)).1⟩

/-! ## C13: `login` and `logout` -/

/-- C13: in every state with a bridge, `login(username, password)` throws if
and only if the phase is not Idle, and then it sends no request and changes
nothing; in phase Idle its only effect is one `POST` to `this._loginUrl` with
the body made of `username` and `password`, and it changes no field of the
controller.  In every phase `logout()` performs the effects and the state
change of `leaveConference()` and then, as its last effect, sends its only
request, one `GET` to `this._logoutUrl`. -/
theorem login_logout (username password : String) (s : State) (bridge : SessionBridge)
    (hb : s.self._bridge = some bridge) :
    ((login username password s).throws = true ↔ bridge.state ≠ .IDLE) ∧
    (bridge.state ≠ .IDLE →
      (login username password s).completion
        = .error (.Error "login() not valid in current state") ∧
      (login username password s).effects = [] ∧
      (login username password s).state = s) ∧
    (bridge.state = .IDLE →
      (login username password s).effects
        = [.xhrSend "POST" s.self._loginUrl (some (username, password))] ∧
      (login username password s).state.self = s.self) ∧
    (logout s).effects
      = (leaveConference s).effects ++ [.xhrSend "GET" s.self._logoutUrl none] ∧
    (logout s).state.self = (leaveConference s).state.self ∧
    (logout s).throws = false ∧
    (∀ method url body, Effect.xhrSend method url body ∉ (leaveConference s).effects) := by
  by_cases hp : bridge.state = .UPDATED <;> by_cases hi : bridge.state = .IDLE <;>
    simp [login, logout, leaveConference, Run.throws, hb, hp, hi]

/-- C13, witness: `login` on an initialised controller in phase Idle. -/
theorem login_logout_witness :
    started.self._bridge = some { state := .IDLE } ∧
    (login "ann" "secret" started).effects
      = [.xhrSend "POST" (some "/login") (some ("ann", "secret"))] :=
  ⟨by decide,
    ((login_logout "ann" "secret" started { state := .IDLE } (by decide)).2.2.1
      (by decide)).1⟩

/-! ## C14: the order of `destroy` -/

/-- C14: `destroy()` on an initialised controller, on a page that has
`window.addEventListener`.  It sets the destroying flag, runs
`leaveConference()` (which ends with the bridge's `logout()`), the listener's
`destroy()` and the bridge's `destroy()`, in this order, and sets the listener,
the prep context, the public snapshot and the bridge to absent; then its call
of `window.removeEventListener` with one argument throws a `TypeError`, so it
does not return normally and the unload tokens stay as they were, not absent.
In the branch for `window.detachEvent`, on a controller initialised there,
`destroy()` returns normally and the unload tokens are absent. -/
theorem destroy_keeps_unload_tokens :
    started.self._unloadToks = some (.object true true) ∧
    (destroy plainWindow started).completion = .error .TypeError ∧
    (destroy plainWindow started).state.self
      = { _prepParams := none, _lastPrep := none, _debug := false, _bridge := none,
          _listener := none, _destroying := true, _unloadToks := some (.object true true),
          _loginUrl := some "/login", _logoutUrl := some "/logout" } ∧
    (destroy plainWindow started).effects
      = [.publishBusy "aborting", .resolve 0 none, .bridgeLogout, .listenerDestroy,
          .bridgeDestroy] ∧
    (destroy legacyWindow startedLegacy).completion = .ok () ∧
    (destroy legacyWindow startedLegacy).state.self._unloadToks = none ∧
    (destroy legacyWindow startedLegacy).effects
      = [.publishBusy "aborting", .resolve 0 none, .bridgeLogout, .listenerDestroy,
          .bridgeDestroy, .detachEvent "onbeforeunload", .detachEvent "onunload"] := by
  decide

/-! ## C15: the update-success continuation -/

/-- C15, counterexample: the update of `updateInFlight` succeeds, and the
application callback run by `def.resolve()` throws.  The handle, promise 2, is
resolved, the exception leaves `_onUpdated`, and `busy "ready"` is not
published, although the claim says it is published in every such state. -/
theorem onUpdated_fault_no_ready :
    (updateInFlight.self._prepParams.map fun prep => prep.deferred) = some (some 2) ∧
    (_onUpdated (some (.Error "boom")) updateInFlight).effects = [.resolve 2 none] ∧
    Effect.publishBusy "ready" ∉ (_onUpdated (some (.Error "boom")) updateInFlight).effects := by
  decide

/-- C15, as amended: in every state whose prep context holds the handle `d`,
`_onUpdated` resolves `d` exactly once, with no payload, and never fails it,
whether or not the resolve throws; when the resolve does not throw, it then
publishes `busy "ready"`, after the resolve, and has no other effect; when the
resolve throws, `busy "ready"` is not published. -/
theorem onUpdated_effects (s : State) (prep : PrepParams) (d : Handle)
    (hp : s.self._prepParams = some prep) (hd : prep.deferred = some d) :
    (_onUpdated none s).effects = [.resolve d none, .publishBusy "ready"] ∧
    (_onUpdated none s).completion = .ok () ∧
    (∀ appFault, (_onUpdated appFault s).effects.filter (settles d) = [.resolve d none]) ∧
    (∀ appFault err, Effect.fail d err ∉ (_onUpdated appFault s).effects) ∧
    (∀ e, Effect.publishBusy "ready" ∉ (_onUpdated (some e) s).effects) := by
  refine ⟨?_, ?_, ?_, ?_, ?_⟩
  · simp [_onUpdated, hp, hd]
  · simp [_onUpdated, hp, hd]
  · intro appFault
    cases appFault <;> simp [_onUpdated, hp, hd, settles, List.filter]
  · intro appFault err
    cases appFault <;> simp [_onUpdated, hp, hd]
  · intro e
    simp [_onUpdated, hp, hd]

/-- C15, witness: the update of `updateInFlight` succeeds and the resolve does
not throw. -/
theorem onUpdated_effects_witness :
    (_onUpdated none updateInFlight).effects = [.resolve 2 none, .publishBusy "ready"] :=
  (onUpdated_effects updateInFlight
    { params := { key := some "example.org/app", collab := none, autoJoin := some true,
                  autoUpdate := some true },
      deferred := some 2, response := some { data := "info" } }
    2 (by decide) (by decide)).1

/-! ## C16: a fault raised by resolving the handle -/

/-- C16: take a state with a bridge and a prep context holding the handle `d`,
and let `def.resolve(...)` throw `e` in `_onPrepared`, or in `_onJoined`.  The
continuation returns normally; after arming and resolving `d`, all it does is
one call of `_onAppPrepareError(e)`, whose effects and resulting state are
those of the continuation from there on, so that the fault is logged once and
`busy "bad-application-state"` is published once; and neither
`joinConference` nor `updateInConference` is started (no `busy "joining"` or
`"updating"`, no bridge join or update), whatever `autoJoin` and `autoUpdate`
are. -/
theorem resolve_fault_handled (params : Response) (e : Fault) (s : State) (prep : PrepParams)
    (d : Handle) (bridge : SessionBridge) (hb : s.self._bridge = some bridge)
    (hp : s.self._prepParams = some prep) (hd : prep.deferred = some d) :
    ((_onPrepared params (some e) s).completion = .ok () ∧
      (∃ value s2, s2.self._bridge = some bridge ∧
        (_onPrepared params (some e) s).effects
          = [.thenErrback d, .resolve d value] ++ (_onAppPrepareError e s2).effects ∧
        (_onPrepared params (some e) s).state = (_onAppPrepareError e s2).state) ∧
      (_onPrepared params (some e) s).effects.count (.consoleError e.message) = 1 ∧
      (_onPrepared params (some e) s).effects.count (.publishBusy "bad-application-state") = 1 ∧
      Effect.publishBusy "joining" ∉ (_onPrepared params (some e) s).effects ∧
      Effect.bridgeJoinConference ∉ (_onPrepared params (some e) s).effects) ∧
    ((_onJoined (some e) s).completion = .ok () ∧
      (∃ value s2, s2.self._bridge = some bridge ∧
        (_onJoined (some e) s).effects
          = [.thenErrback d, .resolve d value] ++ (_onAppPrepareError e s2).effects ∧
        (_onJoined (some e) s).state = (_onAppPrepareError e s2).state) ∧
      (_onJoined (some e) s).effects.count (.consoleError e.message) = 1 ∧
      (_onJoined (some e) s).effects.count (.publishBusy "bad-application-state") = 1 ∧
      Effect.publishBusy "updating" ∉ (_onJoined (some e) s).effects ∧
      Effect.bridgeUpdateInConference ∉ (_onJoined (some e) s).effects) := by
  rcases s with ⟨⟨pp, lp, dbg, br, li, des, ut, lu, lo⟩, n⟩
  simp only at hb hp
  subst hb hp
  rcases prep with ⟨prm, df, resp⟩
  simp only at hd
  subst hd
  constructor
  · refine ⟨?_, ?_, ?_, ?_, ?_, ?_⟩
    · by_cases hs : bridge.state = .UPDATED <;> cases ha : truthy prm.autoJoin <;>
        simp [_onPrepared, _onAppPrepareError, leaveConference, hs, ha]
    · cases ha : truthy prm.autoJoin
      · exact ⟨some ⟨some params, none⟩,
          ⟨⟨some ⟨prm, some d, some params⟩, lp, dbg, some bridge, li, des, ut, lu, lo⟩, n⟩,
          rfl, by simp [_onPrepared, ha], by simp [_onPrepared, ha]⟩
      · exact ⟨some ⟨some params, some n⟩,
          ⟨⟨some ⟨prm, some d, some params⟩, lp, dbg, some bridge, li, des, ut, lu, lo⟩, n + 1⟩,
          rfl, by simp [_onPrepared, ha], by simp [_onPrepared, ha]⟩
    all_goals
      by_cases hs : bridge.state = .UPDATED <;> cases ha : truthy prm.autoJoin <;>
        simp [_onPrepared, _onAppPrepareError, leaveConference, hs, ha, List.count_cons]
  · refine ⟨?_, ?_, ?_, ?_, ?_, ?_⟩
    · by_cases hs : bridge.state = .UPDATED <;> cases ha : truthy prm.autoUpdate <;>
        simp [_onJoined, _onAppPrepareError, leaveConference, hs, ha]
    · cases ha : truthy prm.autoUpdate
      · exact ⟨some ⟨none, none⟩,
          ⟨⟨some ⟨prm, some d, resp⟩, lp, dbg, some bridge, li, des, ut, lu, lo⟩, n⟩,
          rfl, by simp [_onJoined, ha], by simp [_onJoined, ha]⟩
      · exact ⟨some ⟨none, some n⟩,
          ⟨⟨some ⟨prm, some d, resp⟩, lp, dbg, some bridge, li, des, ut, lu, lo⟩, n + 1⟩,
          rfl, by simp [_onJoined, ha], by simp [_onJoined, ha]⟩
    all_goals
      by_cases hs : bridge.state = .UPDATED <;> cases ha : truthy prm.autoUpdate <;>
        simp [_onJoined, _onAppPrepareError, leaveConference, hs, ha, List.count_cons]

/-- C16, witness: the prepare response arrives on `autoJoinPrepared` and the
application callback throws; no join is started although `autoJoin` was
requested. -/
theorem resolve_fault_handled_witness :
    autoJoinPrepared.self._bridge = some { state := .PREPARED } ∧
    (_onPrepared { data := "info" } (some (.Error "boom")) autoJoinPrepared).completion = .ok () ∧
    Effect.bridgeJoinConference
      ∉ (_onPrepared { data := "info" } (some (.Error "boom")) autoJoinPrepared).effects :=
  ⟨by decide,
    (resolve_fault_handled { data := "info" } (.Error "boom") autoJoinPrepared
      { params := { key := some "example.org/app", collab := none, autoJoin := some true,
                    autoUpdate := some true },
        deferred := some 0, response := none }
      0 { state := .PREPARED } (by decide) (by decide) (by decide)).1.1,
    (resolve_fault_handled { data := "info" } (.Error "boom") autoJoinPrepared
      { params := { key := some "example.org/app", collab := none, autoJoin := some true,
                    autoUpdate := some true },
        deferred := some 0, response := none }
      0 { state := .PREPARED } (by decide) (by decide) (by decide)).1.2.2.2.2.2⟩

/-! ## C17: when the prep context is discarded -/

/-- C17, counterexample: the update of `updateInFlight` succeeds; the prep
context was present before `_onUpdated` and is absent after it, so the context
is not retained across a successful update. -/
theorem onUpdated_clears_context :
    updateInFlight.self._prepParams.isSome = true ∧
    (_onUpdated none updateInFlight).completion = .ok () ∧
    (_onUpdated none updateInFlight).state.self._prepParams = none := by
  decide

/-- A call that does not clear the context leaves a present context present. -/
theorem context_kept (w : Window) (c : Call) (s : State) (hc : c.clearsContext = false)
    (hs : s.self._prepParams.isSome = true) :
    (step w c s).state.self._prepParams.isSome = true := by
  rcases s with ⟨⟨pp, lp, dbg, br, li, des, ut, lu, lo⟩, n⟩
  rcases pp with _ | ⟨prm, df, resp⟩
  · simp at hs
  cases c with
  | init params listenerImpl =>
    cases h1 : w.addEventListener <;> cases h2 : w.attachEvent <;>
      rcases ut with _ | _ | _ <;> simp [step, init, h1, h2]
  | login username password =>
    rcases br with _ | ⟨⟨_ | _ | _ | _⟩⟩ <;> simp [step, Run.unit, login]
  | prepareConference params =>
    rcases br with _ | ⟨⟨_ | _ | _ | _⟩⟩ <;> simp [step, Run.unit, prepareConference]
    cases hu : getUrlParams w with
    | error e => simp
    | ok urlParams => cases hr : resolveKey w params urlParams <;> simp [hr]
  | joinConference nextDef =>
    rcases br with _ | ⟨⟨_ | _ | _ | _⟩⟩ <;> simp [step, Run.unit, joinConference]
  | updateInConference nextDef =>
    rcases br with _ | ⟨⟨_ | _ | _ | _⟩⟩ <;> simp [step, Run.unit, updateInConference]
  | _onPrepared params appFault =>
    rcases appFault with _ | e
    · rcases df with _ | d
      · simp [step, _onPrepared]
      · rcases br with _ | ⟨⟨_ | _ | _ | _⟩⟩ <;> cases ha : truthy prm.autoJoin <;>
          simp [step, _onPrepared, joinConference, ha]
    · simp [Call.clearsContext] at hc
  | _onJoined appFault =>
    rcases appFault with _ | e
    · rcases df with _ | d
      · simp [step, _onJoined]
      · rcases br with _ | ⟨⟨_ | _ | _ | _⟩⟩ <;> cases ha : truthy prm.autoUpdate <;>
          simp [step, _onJoined, updateInConference, ha]
    · simp [Call.clearsContext] at hc
  | bridgeState p => simp [step, setBridgeState]
  | destroy => simp [Call.clearsContext] at hc
  | leaveConference => simp [Call.clearsContext] at hc
  | logout => simp [Call.clearsContext] at hc
  | _onPrepareError err => simp [Call.clearsContext] at hc
  | _onJoinError err => simp [Call.clearsContext] at hc
  | _onUpdated appFault => simp [Call.clearsContext] at hc
  | _onUpdateError err => simp [Call.clearsContext] at hc
  | _onDisconnected result => simp [Call.clearsContext] at hc

/-- C17, as amended: in every state whose prep context holds a handle,
`_onJoined`, when the resolve does not throw, leaves the prep context present
with the same params, and `_onUpdated` sets it to absent: the context is
retained across a successful join and discarded by a successful update.  A
present prep context becomes absent only by a call that clears it: a failure
continuation, `_onUpdated`, `leaveConference` or one of its callers, or the
disconnect watcher. -/
theorem context_after_success (s : State) (prep : PrepParams) (d : Handle)
    (hp : s.self._prepParams = some prep) (hd : prep.deferred = some d) :
    ((_onJoined none s).state.self._prepParams.map fun p => p.params) = some prep.params ∧
    (∀ appFault, (_onUpdated appFault s).state.self._prepParams = none) ∧
    (∀ (w : Window) (c : Call) (s1 : State), s1.self._prepParams.isSome = true →
      (step w c s1).state.self._prepParams = none → c.clearsContext = true) := by
  refine ⟨?_, ?_, ?_⟩
  · rcases s with ⟨⟨pp, lp, dbg, br, li, des, ut, lu, lo⟩, n⟩
    simp only at hp
    subst hp
    rcases prep with ⟨prm, df, resp⟩
    simp only at hd
    subst hd
    rcases br with _ | ⟨⟨_ | _ | _ | _⟩⟩ <;> cases ha : truthy prm.autoUpdate <;>
      simp [_onJoined, updateInConference, ha]
  · intro appFault
    cases appFault <;> simp [_onUpdated, hp, hd]
  · intro w c s1 hs hnone
    cases hc : c.clearsContext with
    | true => rfl
    | false =>
      have := context_kept w c s1 hc hs
      rw [hnone] at this
      simp at this

/-- C17, witness: the join of `joinInFlight` succeeds; the update starts and the
prep context stays, with the same params. -/
theorem context_after_success_witness :
    (joinInFlight.self._prepParams.map fun p => p.deferred) = some (some 1) ∧
    ((_onJoined none joinInFlight).state.self._prepParams.map fun p => p.params)
      = some { key := some "example.org/app", collab := none, autoJoin := some true,
               autoUpdate := some true } :=
  ⟨by decide,
    (context_after_success joinInFlight
      { params := { key := some "example.org/app", collab := none, autoJoin := some true,
                    autoUpdate := some true },
        deferred := some 1, response := some { data := "info" } }
      1 (by decide) (by decide)).1⟩

/-! ## C18: the prep context in the disconnect watcher -/

/-- C18: in every state with a bridge and a listener, and for every disconnect
result, `_onDisconnected` changes the prep context if and only if the context
is present without a completion handle, and then it sets it to absent and
changes nothing else; when the context is absent, or present with a handle,
the whole state is unchanged; and no promise is resolved or failed. -/
theorem onDisconnected_context (result : DisconnectResult) (s : State) (bridge : SessionBridge)
    (listener : Listener) (hb : s.self._bridge = some bridge)
    (hl : s.self._listener = some listener) :
    ((_onDisconnected result s).state.self._prepParams ≠ s.self._prepParams ↔
      ∃ prep, s.self._prepParams = some prep ∧ prep.deferred = none) ∧
    (∀ prep, s.self._prepParams = some prep → prep.deferred = none →
      (_onDisconnected result s).state = { s with self := { s.self with _prepParams := none } }) ∧
    (s.self._prepParams = none → (_onDisconnected result s).state = s) ∧
    (∀ prep d, s.self._prepParams = some prep → prep.deferred = some d →
      (_onDisconnected result s).state = s) ∧
    (∀ h, (_onDisconnected result s).effects.filter (settles h) = []) := by
  have hsettle : ∀ h, (_onDisconnected result s).effects.filter (settles h) = [] := by
    intro h
    obtain ⟨rest, heq, hrest⟩ := onDisconnected_effects result s
    rw [heq, List.filter_append, List.append_eq_nil]
    constructor
    · unfold disconnectBusy
      split <;> simp [settles]
    · rw [List.filter_eq_nil_iff]
      intro e he
      rcases hrest e he with h1 | h1 <;> simp [h1, settles]
  refine ⟨?_, ?_, ?_, ?_, hsettle⟩ <;>
    rcases s with ⟨⟨pp, lp, dbg, br, li, des, ut, lu, lo⟩, n⟩ <;>
    simp only at hb hl <;> subst hb hl
  · rcases pp with _ | ⟨prm, _ | d, resp⟩ <;> simp [_onDisconnected]
  · intro prep hpp hd
    simp only at hpp
    subst hpp
    simp [_onDisconnected, hd]
  · intro hpp
    simp only at hpp
    subst hpp
    simp [_onDisconnected]
  · intro prep d hpp hd
    simp only at hpp
    subst hpp
    simp [_onDisconnected, hd]

/-- C18, witness: a disconnect reaches `updateInFlight`, whose context holds
promise 2; the state is unchanged. -/
theorem onDisconnected_context_witness :
    updateInFlight.self._bridge = some { state := .UPDATED } ∧
    updateInFlight.self._listener = some { name := "listener" } ∧
    (_onDisconnected ⟨.UPDATED, some "stream-error"⟩ updateInFlight).state = updateInFlight :=
  ⟨by decide, by decide,
    (onDisconnected_context ⟨.UPDATED, some "stream-error"⟩ updateInFlight { state := .UPDATED }
      { name := "listener" } (by decide) (by decide)).2.2.2.1
      { params := { key := some "example.org/app", collab := none, autoJoin := some true,
                    autoUpdate := some true },
        deferred := some 2, response := some { data := "info" } }
      2 (by decide) (by decide)⟩

/-! ## C19: a present prep context always has a handle -/

/-- Every call keeps the handle attached. -/
theorem step_handleAttached (w : Window) (c : Call) (s : State)
    (hs : handleAttached s = true) : handleAttached (step w c s).state = true := by
  rcases s with ⟨⟨pp, lp, dbg, br, li, des, ut, lu, lo⟩, n⟩
  rcases pp with _ | ⟨prm, _ | d, resp⟩
  · cases c with
    | init params listenerImpl =>
      cases h1 : w.addEventListener <;> cases h2 : w.attachEvent <;>
        rcases ut with _ | _ | _ <;> simp [step, init, handleAttached, h1, h2]
    | destroy =>
      rcases br with _ | ⟨⟨_ | _ | _ | _⟩⟩ <;> rcases li with _ | _ <;>
        cases h1 : w.addEventListener <;> cases h2 : w.attachEvent <;>
        simp [step, destroy, leaveConference, handleAttached, h1, h2]
    | leaveConference =>
      rcases br with _ | ⟨⟨_ | _ | _ | _⟩⟩ <;>
        simp [step, Run.unit, leaveConference, handleAttached]
    | login username password =>
      rcases br with _ | ⟨⟨_ | _ | _ | _⟩⟩ <;> simp [step, Run.unit, login, handleAttached]
    | logout =>
      rcases br with _ | ⟨⟨_ | _ | _ | _⟩⟩ <;>
        simp [step, Run.unit, logout, leaveConference, handleAttached]
    | prepareConference params =>
      rcases br with _ | ⟨⟨_ | _ | _ | _⟩⟩ <;>
        simp [step, Run.unit, prepareConference, handleAttached]
      cases hu : getUrlParams w with
      | error e => simp
      | ok urlParams => cases hr : resolveKey w params urlParams <;> simp [hr]
    | joinConference nextDef =>
      rcases br with _ | ⟨⟨_ | _ | _ | _⟩⟩ <;>
        simp [step, Run.unit, joinConference, handleAttached]
    | updateInConference nextDef =>
      rcases br with _ | ⟨⟨_ | _ | _ | _⟩⟩ <;>
        simp [step, Run.unit, updateInConference, handleAttached]
    | _onPrepared params appFault => simp [step, _onPrepared, handleAttached]
    | _onPrepareError err => simp [step, _onPrepareError, handleAttached]
    | _onJoined appFault => simp [step, _onJoined, handleAttached]
    | _onJoinError err => simp [step, _onJoinError, handleAttached]
    | _onUpdated appFault => simp [step, _onUpdated, handleAttached]
    | _onUpdateError err => simp [step, _onUpdateError, handleAttached]
    | _onDisconnected result =>
      rcases br with _ | _ <;> rcases li with _ | _ <;>
        simp [step, _onDisconnected, handleAttached]
    | bridgeState p => simp [step, setBridgeState, handleAttached]
  · simp [handleAttached] at hs
  · cases c with
    | init params listenerImpl =>
      cases h1 : w.addEventListener <;> cases h2 : w.attachEvent <;>
        rcases ut with _ | _ | _ <;> simp [step, init, handleAttached, h1, h2]
    | destroy =>
      rcases br with _ | ⟨⟨_ | _ | _ | _⟩⟩ <;> rcases li with _ | _ <;>
        cases h1 : w.addEventListener <;> cases h2 : w.attachEvent <;>
        simp [step, destroy, leaveConference, handleAttached, h1, h2]
    | leaveConference =>
      rcases br with _ | ⟨⟨_ | _ | _ | _⟩⟩ <;>
        simp [step, Run.unit, leaveConference, handleAttached]
    | login username password =>
      rcases br with _ | ⟨⟨_ | _ | _ | _⟩⟩ <;> simp [step, Run.unit, login, handleAttached]
    | logout =>
      rcases br with _ | ⟨⟨_ | _ | _ | _⟩⟩ <;>
        simp [step, Run.unit, logout, leaveConference, handleAttached]
    | prepareConference params =>
      rcases br with _ | ⟨⟨_ | _ | _ | _⟩⟩ <;>
        simp [step, Run.unit, prepareConference, handleAttached]
      cases hu : getUrlParams w with
      | error e => simp
      | ok urlParams => cases hr : resolveKey w params urlParams <;> simp [hr]
    | joinConference nextDef =>
      rcases br with _ | ⟨⟨_ | _ | _ | _⟩⟩ <;>
        simp [step, Run.unit, joinConference, handleAttached]
    | updateInConference nextDef =>
      rcases br with _ | ⟨⟨_ | _ | _ | _⟩⟩ <;>
        simp [step, Run.unit, updateInConference, handleAttached]
    | _onPrepared params appFault =>
      rcases br with _ | ⟨⟨_ | _ | _ | _⟩⟩ <;> rcases appFault with _ | e <;>
        cases ha : truthy prm.autoJoin <;>
        simp [step, _onPrepared, joinConference, _onAppPrepareError, leaveConference,
          handleAttached, ha]
    | _onPrepareError err => simp [step, _onPrepareError, handleAttached]
    | _onJoined appFault =>
      rcases br with _ | ⟨⟨_ | _ | _ | _⟩⟩ <;> rcases appFault with _ | e <;>
        cases ha : truthy prm.autoUpdate <;>
        simp [step, _onJoined, updateInConference, _onAppPrepareError, leaveConference,
          handleAttached, ha]
    | _onJoinError err => simp [step, _onJoinError, handleAttached]
    | _onUpdated appFault =>
      rcases appFault with _ | e <;> simp [step, _onUpdated, handleAttached]
    | _onUpdateError err => simp [step, _onUpdateError, handleAttached]
    | _onDisconnected result =>
      rcases br with _ | _ <;> rcases li with _ | _ <;>
        simp [step, _onDisconnected, handleAttached]
    | bridgeState p => simp [step, setBridgeState, handleAttached]

/-- A sequence of calls keeps the handle attached. -/
theorem runFrom_handleAttached (w : Window) (cs : List Call) (t : Trace)
    (ht : handleAttached t.state = true) : handleAttached (runFrom w t cs).state = true := by
  induction cs generalizing t with
  | nil => simpa [runFrom] using ht
  | cons c cs ih =>
    simp only [runFrom]
    exact ih _ (step_handleAttached w c t.state ht)

/-- In a state with the handle attached, the disconnect watcher leaves the
prep context as it is. -/
theorem onDisconnected_keeps_attached (result : DisconnectResult) (s : State)
    (hs : handleAttached s = true) :
    (_onDisconnected result s).state.self._prepParams = s.self._prepParams := by
  rcases s with ⟨⟨pp, lp, dbg, br, li, des, ut, lu, lo⟩, n⟩
  rcases pp with _ | ⟨prm, _ | d, resp⟩
  · rcases br with _ | _ <;> rcases li with _ | _ <;> simp [_onDisconnected]
  · simp [handleAttached] at hs
  · rcases br with _ | _ <;> rcases li with _ | _ <;> simp [_onDisconnected]

/-- C19: on every page and after every sequence of calls on a newly constructed
controller (the public methods with any arguments, the continuations with any
outcome, the disconnect watcher, and any changes of the bridge state in
between), the prep context, when present, has a completion handle attached;
so in every reachable state, for every disconnect result, the disconnect
watcher leaves the prep context as it is: its branch that clears a handle-less
context is not taken. -/
theorem handle_always_attached (w : Window) (cs : List Call) :
    handleAttached (run w cs).state = true ∧
    (∀ prep, (run w cs).state.self._prepParams = some prep → ∃ d, prep.deferred = some d) ∧
    (∀ result, (_onDisconnected result (run w cs).state).state.self._prepParams
      = (run w cs).state.self._prepParams) := by
  have h : handleAttached (run w cs).state = true :=
    runFrom_handleAttached w cs _ (by simp [handleAttached, BayeuxSession.new])
  refine ⟨h, ?_, fun result => onDisconnected_keeps_attached result _ h⟩
  intro prep hprep
  simp only [handleAttached, hprep] at h
  exact Option.isSome_iff_exists.mp h

end Coweb
